import Mathlib

/-!
Shallow embedding of `src/mobile_app/api.py` (finalytics-systems/mobile_app).

Modelling conventions, used throughout this file:

* Python floats are modelled as rationals (`Rat`).  Every numeric step in the
  source (range checks, the radius comparison, the day arithmetic) is an exact
  comparison or exact arithmetic, so rationals are faithful for every
  representable input.
* Python truthiness is modelled explicitly: `None`, the number `0.0`, the
  empty string and the empty byte string are falsy.  The source tests values
  with `if not x` in several places, and this matters (for example a latitude
  of exactly `0.0` is treated as a missing coordinate).
* External collaborators — the frappe ORM, the hrms helpers
  (`get_distance_between_coordinates`, `validate_active_employee`), stdlib
  `base64.b64decode`, and `save_file` — are modelled as fields of an `Env`
  record.  The embedding keeps exactly the control flow of the source around
  them.  `_get_employee_settings` (which only reads Department / Project /
  Company documents through the ORM and can fail only by raising
  `ValidationError`) is likewise provided by the environment as
  `Except String Settings`.
* `frappe.throw` raising `ValidationError` / `DoesNotExistError` /
  `CheckinRadiusExceededError` is modelled as an error value carrying a
  structured message (`Msg`).  All three exception classes are caught by the
  same handler in `create_checkin_checkout` and mapped to HTTP 401, so a
  single error family suffices; message payloads (such as the computed
  distance in the radius-exceeded message) are carried structurally.
* Timestamps are naive-UTC wall-clock seconds (`Int`) plus microseconds and
  an optional timezone offset, mirroring Python `datetime`.
-/

namespace MobileApp

/-- Equality on `Except` results is decidable; used to evaluate the model on
concrete inputs. -/
instance {ε α : Type} [DecidableEq ε] [DecidableEq α] :
    DecidableEq (Except ε α) := fun a b =>
  match a, b with
  | .error e1, .error e2 =>
    match decEq e1 e2 with
    | .isTrue h => .isTrue (h ▸ rfl)
    | .isFalse h => .isFalse fun hc => h (Except.error.inj hc)
  | .ok a1, .ok a2 =>
    match decEq a1 a2 with
    | .isTrue h => .isTrue (h ▸ rfl)
    | .isFalse h => .isFalse fun hc => h (Except.ok.inj hc)
  | .error _, .ok _ => .isFalse fun hc => Except.noConfusion hc
  | .ok _, .error _ => .isFalse fun hc => Except.noConfusion hc

/-- A Python `datetime` value: wall-clock seconds since the epoch, the
microsecond field, and an optional timezone offset in seconds east of UTC
(`none` models a naive datetime). -/
structure PyDatetime where
  seconds : Int
  micro : Nat
  tzOffset : Option Int
deriving DecidableEq, Repr

/-- Python truthiness of an optional numeric value: `None` and `0.0` are
falsy. -/
def truthyNum : Option Rat → Bool
  | none => false
  | some x => x != 0

/-- Python truthiness of an optional string: `None` and the empty string are
falsy. -/
def truthyStr : Option String → Bool
  | none => false
  | some s => s != ""

/-- Structured error messages raised (or directly returned) by the endpoints.
Each constructor corresponds to one `frappe.throw` / direct return site in the
source; payload arguments model the values interpolated into the message
text. -/
inductive Msg where
  | employeeNotFound
  | noUserEmail
  | employeeNotFoundForEmail
  | inactiveEmployee (detail : String)
  | invalidLogType
  | settingsError (detail : String)
  | locationRequired (isIn : Bool)
  | coordinatesRequired (isIn : Bool)
  | invalidLatitude
  | invalidLongitude
  | radiusExceeded (distance : Rat) (radius : Rat) (isIn : Bool)
  | photoRequired (biometric : Bool) (isIn : Bool)
  | photoNotFound (biometric : Bool)
  | invalidTimestamp (detail : String)
  | mustCheckInFirst (dayStart : Int)
  | alreadyCompleted (isIn : Bool) (dayStart : Int)
  | duplicateTimestamp
  | duplicateTimestampRetry
  | errorCreating (detail : String)
  | invalidImageFormat
  | photoFileEmpty
  | photoTooLarge
  | genericError
deriving DecidableEq, Repr

/-- The flat settings record returned by `_get_employee_settings`. -/
structure Settings where
  required_to_upload_location_photo : Bool
  required_to_upload_client_bio_metric_photo : Bool
  require_location_check_on_check_out : Bool
  branch_latitude : Rat
  branch_longitude : Rat
  branch_radius : Rat
deriving DecidableEq, Repr

/-- The result of `_validate_location`
(`src/mobile_app/api.py`, lines 438-490), translated step for step.  The
great-circle distance computation `get_distance_between_coordinates` is an
external hrms collaborator and is passed in as `dist`; the source wraps the
call in a try/except that only fires when the collaborator itself raises,
which the total model does not represent.  The `float()` conversion of the
already-numeric inputs is the identity and its failure branch is likewise
unreachable in the numeric model. -/
def validate_location (latitude longitude : Option Rat)
    (branch_latitude branch_longitude branch_radius : Rat)
    (log_type : String) (dist : Rat → Rat → Rat → Rat → Rat) :
    Except Msg Rat :=
  if ¬(truthyNum latitude ∧ truthyNum longitude) then
    .error (.coordinatesRequired (log_type = "IN"))
  else if ¬(-90 ≤ latitude.getD 0 ∧ latitude.getD 0 ≤ 90) then
    .error .invalidLatitude
  else if ¬(-180 ≤ longitude.getD 0 ∧ longitude.getD 0 ≤ 180) then
    .error .invalidLongitude
  else if branch_radius < dist branch_latitude branch_longitude
      (latitude.getD 0) (longitude.getD 0) then
    .error (.radiusExceeded
      (dist branch_latitude branch_longitude (latitude.getD 0)
        (longitude.getD 0))
      branch_radius (log_type = "IN"))
  else
    .ok (dist branch_latitude branch_longitude (latitude.getD 0)
      (longitude.getD 0))

/-- A Python value passed for `has_existing_token` in `mobile_login`. -/
inductive PyFlag where
  | pstr (s : String)
  | pbool (b : Bool)
  | pint (n : Int)
  | pnone
deriving DecidableEq, Repr

/-- ASCII lowercasing of one character, as Python `str.lower` does on the
ASCII range (the strings compared against are all ASCII). -/
def pyLowerChar (c : Char) : Char :=
  if 65 ≤ c.toNat ∧ c.toNat ≤ 90 then Char.ofNat (c.toNat + 32) else c

/-- Python `s.lower()` on an ASCII string. -/
def pyLower (s : String) : String := String.mk (s.data.map pyLowerChar)

/-- Coercion of `has_existing_token` (`src/mobile_app/api.py`, lines 50-54):
a string is lowercased and compared against `"true"`, `"1"`, `"yes"`; any
other value goes through `bool(...)`, that is ordinary Python truthiness. -/
def coerce_has_existing_token : PyFlag → Bool
  | .pstr s => pyLower s = "true" ∨ pyLower s = "1" ∨ pyLower s = "yes"
  | .pbool b => b
  | .pint n => n != 0
  | .pnone => false

/-- The fields of the frappe `User` document touched by `mobile_login`. -/
structure UserDoc where
  api_key : Option String
  api_secret : Option String
deriving DecidableEq, Repr

/-- The `api_credentials` block of the `mobile_login` response. -/
structure ApiCredentials where
  token : Option String
  generated : Bool
deriving DecidableEq, Repr

/-- The credential-handling section of `mobile_login`
(`src/mobile_app/api.py`, lines 88-124), after a successful authentication.
`freshSecret` and `freshKey` model the two successive results of
`frappe.generate_hash(length=15)`: the source draws the secret first and the
key second (the key draw happens only when the user has no truthy
`api_key`).  Returns the saved user document and the `api_credentials`
block. -/
def mobile_login_credentials (has_existing_token : PyFlag) (user : UserDoc)
    (freshSecret freshKey : String) : UserDoc × ApiCredentials :=
  if coerce_has_existing_token has_existing_token then
    (user, { token := none, generated := false })
  else
    match user.api_key with
    | some k =>
      if k = "" then
        ({ api_key := some freshKey, api_secret := some freshSecret },
         { token := some (freshKey ++ ":" ++ freshSecret), generated := true })
      else
        ({ user with api_secret := some freshSecret },
         { token := some (k ++ ":" ++ freshSecret), generated := true })
    | none =>
      ({ api_key := some freshKey, api_secret := some freshSecret },
       { token := some (freshKey ++ ":" ++ freshSecret), generated := true })

/-- A Python value passed for `limit` / `offset` in
`get_employee_checkin_records`.  `pstr` carries the outcome of Python
`int(s)` on the string: `some n` when the string parses as the integer `n`,
`none` when `int` raises `ValueError`. -/
inductive PyNum where
  | pnone
  | pint (n : Int)
  | pstr (parsed : Option Int)
deriving DecidableEq, Repr

/-- Outcome of Python `int(x)` on a `PyNum`: `int(None)` raises `TypeError`,
an integer is returned unchanged, a string parses or raises `ValueError`. -/
def pyToInt : PyNum → Option Int
  | .pnone => none
  | .pint n => some n
  | .pstr p => p

/-- Sanitization of `limit` (`src/mobile_app/api.py`, lines 1063-1072): a
missing limit defaults to 100; otherwise `int(limit)` is attempted, a failed
conversion or a value below 1 becomes 100. -/
def sanitizeLimit : PyNum → Int
  | .pnone => 100
  | x =>
    match pyToInt x with
    | some n => if n < 1 then 100 else n
    | none => 100

/-- Sanitization of `offset` (`src/mobile_app/api.py`, lines 1074-1080):
`int(offset)` is attempted, a failed conversion or a negative value becomes
0. -/
def sanitizeOffset (x : PyNum) : Int :=
  match pyToInt x with
  | some n => if n < 0 then 0 else n
  | none => 0

/-- The pagination block of the `get_employee_checkin_records` response. -/
structure PageResponse (α : Type) where
  records : List α
  total_count : Nat
  limit : Int
  offset : Int
  has_more : Bool
deriving DecidableEq, Repr

/-- Pagination of `get_employee_checkin_records`
(`src/mobile_app/api.py`, lines 1063-1108 and 1186-1193).  `rows` is the
list of checkin rows matching the employee / log-type / date filters in
`time desc` order, as delivered by `frappe.get_all`; the ORM query with
`limit` and `start` returns the slice of length at most `limit` starting at
`offset`, and `total_count` is `frappe.db.count` on the same filters. -/
def get_employee_checkin_records_page {α : Type} (rows : List α)
    (limit offset : PyNum) : PageResponse α :=
  let l := sanitizeLimit limit
  let o := sanitizeOffset offset
  let total := rows.length
  { records := (rows.drop o.toNat).take l.toNat
    total_count := total
    limit := l
    offset := o
    has_more := decide (o + l < (total : Int)) }

/-- A value submitted for one of the photo parameters of
`create_checkin_checkout`: absent, a string (file id, base64 text or data
URI), or raw bytes (modelled as a list of byte values).  The
multipart/form-data branch of the endpoint only converts incoming
`FileStorage` objects into raw bytes before the logic modelled here runs, so
`bytes` also covers that path. -/
inductive PhotoData where
  | pyNone
  | str (s : String)
  | bytes (b : List Nat)
deriving DecidableEq, Repr

/-- Python truthiness of a photo value: `None`, `""` and `b""` are falsy. -/
def truthyPhoto : PhotoData → Bool
  | .pyNone => false
  | .str s => s != ""
  | .bytes b => b != []

/-- Result of processing one photo: an already-uploaded `File` document, or a
freshly saved file (with the bytes handed to `save_file` and the resulting
file id). -/
inductive PhotoRes where
  | fileRef (id : String)
  | saved (content : List Nat) (id : String)
deriving DecidableEq, Repr

/-- Error channel of the endpoint body.  `validation` models a raised
`ValidationError` / `DoesNotExistError` / `CheckinRadiusExceededError`
(all three are caught together and mapped to HTTP 401); `direct` models the
required-photo-missing case, which returns `{"exception": ...}` from inside
the `try` block without raising and therefore without touching the HTTP
status; `unexpected` models an exception outside those classes, caught by
the final `except Exception` handler. -/
inductive Err where
  | validation (m : Msg)
  | direct (m : Msg)
  | unexpected
deriving DecidableEq, Repr

/-- Outcome of `checkin_doc.insert()` as far as the endpoint can observe it:
success, a `frappe.DuplicateEntryError`, another exception whose message
contains "duplicate", or another exception with message `detail`. -/
inductive InsertErr where
  | duplicateEntry
  | otherDuplicate
  | other (detail : String)
deriving DecidableEq, Repr

/-- The environment of external collaborators around
`create_checkin_checkout`: the frappe ORM lookups, the hrms helpers, stdlib
base64, the clock and the file store. -/
structure Env where
  /-- Existing `Employee` ids (`frappe.db.exists("Employee", ...)`). -/
  employees : List String
  /-- Email of the authenticated user, `none` when missing or empty. -/
  userEmail : Option String
  /-- `Employee` name for a given `company_email`. -/
  employeeByEmail : String → Option String
  /-- hrms `validate_active_employee`: `some detail` when it raises its
  `ValidationError` subclass for this employee. -/
  activeError : String → Option String
  /-- `_get_employee_settings` for this employee: the resolved flat settings
  record, or the message of the `ValidationError` it raises.  That helper
  only reads Company / Department / Project / Branch documents and every one
  of its failure sites raises `ValidationError`. -/
  settings : String → Except String Settings
  /-- hrms `get_distance_between_coordinates`. -/
  dist : Rat → Rat → Rat → Rat → Rat
  /-- Existing `File` ids (`frappe.db.exists("File", ...)`). -/
  files : List String
  /-- Outcome of `base64.b64decode` on a payload: the decoded bytes, or
  `none` when it raises. -/
  b64decode : String → Option (List Nat)
  /-- Naive wall-clock seconds of `frappe.utils.get_datetime()` now. -/
  nowSeconds : Int
  /-- Outcome of `checkin_doc.insert()`. -/
  insertError : Option InsertErr
  /-- Id of the file document returned by `save_file`. -/
  savedFileId : String

/-- An `Employee Checkin` record as created by the endpoint.  The `time`
field is naive-UTC seconds; the endpoint always zeroes the microsecond field
before insertion.  The shift fields filled by `fetch_shift` and the
geolocation field are delegated to external collaborators and carry no logic
claimed about, so they are not modelled. -/
structure CheckinRecord where
  employee : String
  log_type : String
  time : Int
  latitude : Option Rat
  longitude : Option Rat
  device_id : Option String
deriving DecidableEq, Repr

/-- The timestamp argument of `create_checkin_checkout` as seen after
`get_datetime`: absent, a successfully parsed datetime, or a string that
`get_datetime` fails to parse (carrying the error detail). -/
inductive TsInput where
  | noTs
  | goodTs (t : PyDatetime)
  | badTs (detail : String)
deriving DecidableEq, Repr

/-- The named parameters of `create_checkin_checkout` that carry logic.  The
`checkin_id` parameter is accepted and never used by the source, and `notes`
is only copied verbatim onto the record when the doctype has the field;
neither is modelled. -/
structure CheckinInput where
  employee_id : Option String
  log_type : String
  latitude : Option Rat
  longitude : Option Rat
  device_id : Option String
  location_photo : PhotoData
  client_biometric_photo : PhotoData
  timestamp : TsInput
  location_photo_id : Option String
  client_biometric_photo_id : Option String
deriving Repr

/-- The success payload assembled at the end of `create_checkin_checkout`.
`distance` is the raw computed distance (the JSON response rounds it to two
decimals); the photo fields carry the file id when a photo was attached. -/
structure SuccessData where
  employee : String
  log_type : String
  time : PyDatetime
  latitude : Option Rat
  longitude : Option Rat
  distance : Option Rat
  location_photo : Option String
  biometric_photo : Option String
deriving DecidableEq, Repr

/-- Body of the endpoint response: a success record or the minimal
`{"exception": message}` shape. -/
inductive Body where
  | success (s : SuccessData)
  | exception (m : Msg)
deriving DecidableEq, Repr

/-- An endpoint response: the HTTP status code of `frappe.local.response`
(200 when the endpoint does not set it) and the JSON body. -/
structure Resp where
  status : Nat
  body : Body
deriving DecidableEq, Repr

/-- Mapping of the endpoint error channel to the wire response, mirroring the
two `except` clauses at the end of `create_checkin_checkout` (lines 949-962)
and the direct returns inside the `try` block: a caught validation-type
exception sets status 401 and returns its message; a direct return leaves
the status at its default 200; an unexpected exception is logged and mapped
to the generic message with status 500. -/
def errResp : Err → Resp
  | .validation m => { status := 401, body := .exception m }
  | .direct m => { status := 200, body := .exception m }
  | .unexpected => { status := 500, body := .exception .genericError }

/-- Python `s.startswith("data:")`, computed on the character list. -/
def startsWithData (s : String) : Bool :=
  List.isPrefixOf "data:".data s.data

/-- Split a character list at the first comma: the part before it and the
part after it, or `none` when there is no comma.  This is Python
`split(",", 1)` up to presence of the second piece. -/
def splitFirstComma : List Char → Option (List Char × List Char)
  | [] => none
  | c :: cs =>
    if c = ',' then some ([], cs)
    else
      match splitFirstComma cs with
      | none => none
      | some (a, b) => some (c :: a, b)

/-- Stripping of the optional data-URI scheme in `_handle_photo_upload`
(lines 529-531): Python `photo_data.split(",", 1)[1]` keeps everything after
the first comma and raises `IndexError` when the string contains no comma
(an unexpected error for the endpoint). -/
def stripDataUri (s : String) : Except Err String :=
  match splitFirstComma s.data with
  | some (_, rest) => .ok (String.mk rest)
  | none => .error .unexpected

/-- The save section of `_handle_photo_upload` (lines 570-608): re-check that
the bytes are nonempty, enforce the 5MB limit, then hand the bytes to
`save_file`.  `save_file` itself is an external collaborator modelled as
always succeeding with `env.savedFileId`; its failure branch re-raises as a
`ValidationError` and carries no further logic. -/
def photoSaveSection (env : Env) (bs : List Nat) : Except Err (Option PhotoRes) :=
  if bs.length = 0 then .error (.validation .photoFileEmpty)
  else if 5 * 1024 * 1024 < bs.length then .error (.validation .photoTooLarge)
  else .ok (some (.saved bs env.savedFileId))

/-- `_handle_photo_upload` (`src/mobile_app/api.py`, lines 493-610),
translated step for step.  A falsy value returns `None` without error.  A
string that does not start with `"data:"` and names an existing `File` is
returned as that file.  Any other string is treated as base64: the data-URI
scheme is stripped when present, then the decode and the inline empty check
run inside one `try` whose handler catches every exception — including the
`ValidationError` thrown for an empty decode — and rethrows the
invalid-image-format `ValidationError`, so both a failed decode and an empty
decode surface as that message.  Raw bytes skip the decode.  Both decoded
and raw bytes then go through the save section. -/
def handle_photo_upload (env : Env) (photo : PhotoData) :
    Except Err (Option PhotoRes) :=
  if ¬truthyPhoto photo then .ok none
  else
    match photo with
    | .pyNone => .ok none
    | .str s =>
      if ¬startsWithData s ∧ env.files.contains s then
        .ok (some (.fileRef s))
      else
        match (if startsWithData s then stripDataUri s else .ok s) with
        | .error e => .error e
        | .ok payload =>
          match env.b64decode payload with
          | none => .error (.validation .invalidImageFormat)
          | some bs =>
            if bs.length = 0 then .error (.validation .invalidImageFormat)
            else photoSaveSection env bs
    | .bytes b => photoSaveSection env b

/-- The photo attachment step after record creation (lines 881-902): a truthy
photo value goes through `_handle_photo_upload`; otherwise a provided id of
an existing `File` is linked to the record; otherwise nothing happens. -/
def photoAttach (env : Env) (photo : PhotoData) (pid : Option String) :
    Except Err (Option PhotoRes) :=
  if truthyPhoto photo then handle_photo_upload env photo
  else if truthyStr pid ∧ env.files.contains (pid.getD "") then
    .ok (some (.fileRef (pid.getD "")))
  else .ok none

/-- Employee resolution from the authenticated user (lines 705-726): the
user must have a nonempty email, and an `Employee` with that
`company_email` must exist. -/
def resolveEmployeeFromEmail (env : Env) : Except Err String :=
  match env.userEmail with
  | none => .error (.validation .noUserEmail)
  | some em =>
    if em = "" then .error (.validation .noUserEmail)
    else
      match env.employeeByEmail em with
      | none => .error (.validation .employeeNotFoundForEmail)
      | some name => .ok name

/-- Employee resolution (lines 693-726): a truthy `employee_id` must name an
existing `Employee` (raising `DoesNotExistError` otherwise); a falsy one
falls back to the authenticated user. -/
def resolveEmployee (env : Env) (employee_id : Option String) :
    Except Err String :=
  match employee_id with
  | some eid =>
    if eid = "" then resolveEmployeeFromEmail env
    else if env.employees.contains eid then .ok eid
    else .error (.validation .employeeNotFound)
  | none => resolveEmployeeFromEmail env

/-- The location-validation step (lines 740-768): a check-in always requires
truthy coordinates and a passing geofence check; a check-out does so exactly
when the resolved settings require it, and otherwise the distance stays
`None`. -/
def locationStage (env : Env) (st : Settings) (log_type : String)
    (latitude longitude : Option Rat) : Except Err (Option Rat) :=
  if log_type = "IN" then
    if ¬(truthyNum latitude ∧ truthyNum longitude) then
      .error (.validation (.locationRequired true))
    else
      match validate_location latitude longitude st.branch_latitude
          st.branch_longitude st.branch_radius log_type env.dist with
      | .error m => .error (.validation m)
      | .ok d => .ok (some d)
  else if st.require_location_check_on_check_out then
    if ¬(truthyNum latitude ∧ truthyNum longitude) then
      .error (.validation (.locationRequired false))
    else
      match validate_location latitude longitude st.branch_latitude
          st.branch_longitude st.branch_radius log_type env.dist with
      | .error m => .error (.validation m)
      | .ok d => .ok (some d)
  else .ok none

/-- The required-photo presence check for one photo kind (lines 770-792):
when the settings require the photo, either the photo value or the photo id
must be truthy — otherwise the endpoint returns the exception body directly
(without raising, hence without setting the HTTP status) — and a truthy id
must name an existing `File`. -/
def photoPresenceOne (env : Env) (required : Bool) (isIn : Bool)
    (photo : PhotoData) (pid : Option String) (biometric : Bool) :
    Except Err Unit :=
  if required then
    if ¬truthyPhoto photo ∧ ¬truthyStr pid then
      .error (.direct (.photoRequired biometric isIn))
    else if truthyStr pid ∧ ¬env.files.contains (pid.getD "") then
      .error (.validation (.photoNotFound biometric))
    else .ok ()
  else .ok ()

/-- Processing of a parsed timestamp (lines 795-801): a timezone-aware value
is converted to UTC wall-clock time and stripped of its timezone, then the
microsecond field is zeroed. -/
def processTimestamp (t : PyDatetime) : PyDatetime :=
  match t.tzOffset with
  | some off => { seconds := t.seconds - off, micro := 0, tzOffset := none }
  | none => { t with micro := 0 }

/-- The timestamp step (lines 794-809): an absent timestamp becomes the
current naive time with microseconds zeroed; an unparseable one raises
`ValidationError`. -/
def parseTimestamp (env : Env) : TsInput → Except Err PyDatetime
  | .noTs => .ok { seconds := env.nowSeconds, micro := 0, tzOffset := none }
  | .goodTs t => .ok (processTimestamp t)
  | .badTs d => .error (.validation (.invalidTimestamp d))

/-- Midnight of the day of a naive timestamp, as computed by
`checkin_time.replace(hour=0, minute=0, second=0, microsecond=0)`: the floor
of the wall-clock seconds to a multiple of 86400. -/
def dayFloor (t : Int) : Int := 86400 * (Int.ediv t 86400)

/-- The filter used by the duplicate checks: same employee, same log type,
and a `time` in the closed interval `[lo, hi]` — frappe compiles
`["between", [a, b]]` to SQL `BETWEEN`, which is inclusive at both ends. -/
def recMatches (emp lt : String) (lo hi : Int) (r : CheckinRecord) : Bool :=
  r.employee = emp ∧ r.log_type = lt ∧ lo ≤ r.time ∧ r.time ≤ hi

/-- `frappe.db.exists` on the duplicate-check filter. -/
def checkinExists (store : List CheckinRecord) (emp lt : String)
    (lo hi : Int) : Bool :=
  store.any (recMatches emp lt lo hi)

/-- `frappe.db.count` on the duplicate-check filter. -/
def checkinCount (store : List CheckinRecord) (emp lt : String)
    (lo hi : Int) : Nat :=
  (store.filter (recMatches emp lt lo hi)).length

/-- The one-IN-one-OUT-per-date enforcement (lines 811-849): a check-out
requires an IN record in the closed window from midnight of the timestamp
day through midnight of the next day, and any record of the requested log
type in that window makes the request fail as already completed. -/
def dayStage (store : List CheckinRecord) (emp log_type : String)
    (t : Int) : Except Err Unit :=
  if log_type = "OUT" ∧
      ¬checkinExists store emp "IN" (dayFloor t) (dayFloor t + 86400) then
    .error (.validation (.mustCheckInFirst (dayFloor t)))
  else if 0 < checkinCount store emp log_type (dayFloor t) (dayFloor t + 86400) then
    .error (.validation (.alreadyCompleted (log_type = "IN") (dayFloor t)))
  else .ok ()

/-- The insert step (lines 866-879): every exception raised by
`checkin_doc.insert()` is converted to a `ValidationError` — a
`DuplicateEntryError` and any message containing "duplicate" get the
duplicate-timestamp messages, anything else the generic creation-error
message. -/
def insertStage (env : Env) : Except Err Unit :=
  match env.insertError with
  | none => .ok ()
  | some .duplicateEntry => .error (.validation .duplicateTimestamp)
  | some .otherDuplicate => .error (.validation .duplicateTimestampRetry)
  | some (.other d) => .error (.validation (.errorCreating d))

/-- The record built by the endpoint (lines 851-861): coordinates are stored
only when truthy (`float(latitude) if latitude else None`), the time is the
processed timestamp. -/
def mkRecord (emp : String) (inp : CheckinInput) (ct : PyDatetime) :
    CheckinRecord :=
  { employee := emp
    log_type := inp.log_type
    time := ct.seconds
    latitude := if truthyNum inp.latitude then inp.latitude else none
    longitude := if truthyNum inp.longitude then inp.longitude else none
    device_id := inp.device_id }

/-- File id of a photo-processing result, used for the response fields. -/
def photoResId : Option PhotoRes → Option String
  | some (.fileRef i) => some i
  | some (.saved _ i) => some i
  | none => none

/-- hrms `validate_active_employee` (line 729): raises a `ValidationError`
subclass for an inactive employee. -/
def activeStage (env : Env) (emp : String) : Except Err Unit :=
  match env.activeError emp with
  | some d => .error (.validation (.inactiveEmployee d))
  | none => .ok ()

/-- The log-type check (lines 731-735). -/
def logTypeStage (log_type : String) : Except Err Unit :=
  if ¬(log_type = "IN" ∨ log_type = "OUT") then
    .error (.validation .invalidLogType)
  else .ok ()

/-- `_get_employee_settings` (line 738), through the environment. -/
def settingsStage (env : Env) (emp : String) : Except Err Settings :=
  match env.settings emp with
  | .error d => .error (.validation (.settingsError d))
  | .ok st => .ok st

/-- Everything `create_checkin_checkout` does before the record is inserted
(lines 693-849), in source order: employee resolution, the active check, the
log-type check, settings resolution, location validation, the required-photo
presence checks, timestamp processing, and the per-day duplicate checks.
None of these steps touches the store. -/
def stageA (env : Env) (store : List CheckinRecord) (inp : CheckinInput) :
    Except Err (String × Settings × Option Rat × PyDatetime) := do
  let emp ← resolveEmployee env inp.employee_id
  let _ ← activeStage env emp
  let _ ← logTypeStage inp.log_type
  let st ← settingsStage env emp
  let dq ← locationStage env st inp.log_type inp.latitude inp.longitude
  let _ ← photoPresenceOne env st.required_to_upload_location_photo
      (inp.log_type = "IN") inp.location_photo inp.location_photo_id false
  let _ ← photoPresenceOne env st.required_to_upload_client_bio_metric_photo
      (inp.log_type = "IN") inp.client_biometric_photo
      inp.client_biometric_photo_id true
  let ct ← parseTimestamp env inp.timestamp
  let _ ← dayStage store emp inp.log_type ct.seconds
  return (emp, st, dq, ct)

/-- The photo upload / linking step after the insert (lines 881-902):
location photo first, then biometric photo. -/
def photoStage (env : Env) (inp : CheckinInput) :
    Except Err (Option PhotoRes × Option PhotoRes) := do
  let lres ← photoAttach env inp.location_photo inp.location_photo_id
  let bres ← photoAttach env inp.client_biometric_photo
      inp.client_biometric_photo_id
  return (lres, bres)

/-- `create_checkin_checkout` (`src/mobile_app/api.py`, lines 613-962).
Returns the wire response together with the store of `Employee Checkin`
records after the call.  All validation up to and including the per-day
duplicate checks happens before the insert; the photo upload and linking
happen after the insert and the explicit `frappe.db.commit()`, so a failure
there still leaves the new record in the store. -/
def create_checkin_checkout (env : Env) (store : List CheckinRecord)
    (inp : CheckinInput) : Resp × List CheckinRecord :=
  match stageA env store inp with
  | .error e => (errResp e, store)
  | .ok (emp, _st, dq, ct) =>
    match insertStage env with
    | .error e => (errResp e, store)
    | .ok _ =>
      let r0 := mkRecord emp inp ct
      let newStore := store ++ [r0]
      match photoStage env inp with
      | .error e => (errResp e, newStore)
      | .ok (lres, bres) =>
          ({ status := 200
             body := .success
               { employee := emp
                 log_type := inp.log_type
                 time := ct
                 latitude := r0.latitude
                 longitude := r0.longitude
                 distance := dq
                 location_photo := photoResId lres
                 biometric_photo := photoResId bres } },
           newStore)

/-- A canonical request body: explicit employee id, a parsed naive timestamp
at `T` seconds, optional coordinates, no photos.  Used to state the per-day
state-machine behaviour for arbitrary employee, day and store. -/
def simpleInput (emp lt : String) (T : Int) (lat lon : Option Rat) :
    CheckinInput :=
  { employee_id := some emp
    log_type := lt
    latitude := lat
    longitude := lon
    device_id := none
    location_photo := .pyNone
    client_biometric_photo := .pyNone
    timestamp := .goodTs { seconds := T, micro := 0, tzOffset := none }
    location_photo_id := none
    client_biometric_photo_id := none }

/-- Does a record belong to employee `emp`, log type `lt` and calendar day
`d` (day number = floor of the naive seconds by 86400)? -/
def sameDayMatch (emp lt : String) (d : Int) (r : CheckinRecord) : Bool :=
  r.employee = emp ∧ r.log_type = lt ∧ Int.ediv r.time 86400 = d

/-- The records of one employee and log type whose timestamp falls on the
calendar day `d`. -/
def sameDayFilter (store : List CheckinRecord) (emp lt : String) (d : Int) :
    List CheckinRecord :=
  store.filter (sameDayMatch emp lt d)

/-- The claimed store invariant: at most one IN and at most one OUT record
per employee per calendar day. -/
def atMostOnePerDay (store : List CheckinRecord) : Prop :=
  ∀ emp lt d, (sameDayFilter store emp lt d).length ≤ 1

/-- Messages that can only be produced by the photo-processing step, which
runs after the record has been inserted and committed. -/
def photoStageMsg (m : Msg) : Prop :=
  m = .invalidImageFormat ∨ m = .photoFileEmpty ∨ m = .photoTooLarge ∨
    m = .genericError

/-- Messages raised by coordinate / geofence validation. -/
def locationMsg : Msg → Prop
  | .locationRequired _ => True
  | .coordinatesRequired _ => True
  | .invalidLatitude => True
  | .invalidLongitude => True
  | .radiusExceeded _ _ _ => True
  | _ => False

/-- Errors the photo-processing step can produce. -/
def photoErr (e : Err) : Prop :=
  e = .validation .invalidImageFormat ∨ e = .validation .photoFileEmpty ∨
    e = .validation .photoTooLarge ∨ e = .unexpected

/-- The message delivered to the client for an endpoint error: the raised
message for the two exception-backed channels, the generic message for an
unexpected error. -/
def msgOf : Err → Msg
  | .validation m => m
  | .direct m => m
  | .unexpected => .genericError

/-- Expected outcome of the base64 branch of `_handle_photo_upload` on an
already-stripped payload: a failed or empty decode is rejected as an invalid
image, decoded content above 5MB is rejected as too large, and anything else
is saved. -/
def b64Outcome (env : Env) (payload : String) : Except Err (Option PhotoRes) :=
  match env.b64decode payload with
  | none => .error (.validation .invalidImageFormat)
  | some [] => .error (.validation .invalidImageFormat)
  | some bs =>
    if 5 * 1024 * 1024 < bs.length then .error (.validation .photoTooLarge)
    else .ok (some (.saved bs env.savedFileId))

/-- A settings record with no photo requirements and no checkout location
check, branch at the origin with a 100m radius. -/
def plainSettings : Settings :=
  { required_to_upload_location_photo := false
    required_to_upload_client_bio_metric_photo := false
    require_location_check_on_check_out := false
    branch_latitude := 0
    branch_longitude := 0
    branch_radius := 100 }

/-- A concrete environment for witnesses and counterexamples: one employee,
permissive settings, a distance collaborator that always reports 0m, one
pre-existing file, and a base64 collaborator that decodes `"QUJD"` to three
bytes, decodes `"WS"` (modelling whitespace-only base64 text) to zero bytes,
and fails on everything else. -/
def baseEnv : Env :=
  { employees := ["EMP-0001"]
    userEmail := none
    employeeByEmail := fun _ => none
    activeError := fun _ => none
    settings := fun _ => .ok plainSettings
    dist := fun _ _ _ _ => 0
    files := ["FILE-OK"]
    b64decode := fun s =>
      if s = "QUJD" then some [65, 66, 67]
      else if s = "WS" then some [] else none
    nowSeconds := 1000000
    insertError := none
    savedFileId := "FILE-NEW" }

/-- `plainSettings` with a mandatory location photo. -/
def photoReqSettings : Settings :=
  { plainSettings with required_to_upload_location_photo := true }

/-- `plainSettings` with the checkout location check switched on. -/
def outReqSettings : Settings :=
  { plainSettings with require_location_check_on_check_out := true }

/-- `baseEnv` with a mandatory location photo. -/
def photoReqEnv : Env :=
  { baseEnv with settings := fun _ => .ok photoReqSettings }

/-- `baseEnv` with the checkout location check switched on. -/
def outReqEnv : Env :=
  { baseEnv with settings := fun _ => .ok outReqSettings }

/-- A plain IN request at time `T` with in-radius coordinates. -/
def inputIN (T : Int) : CheckinInput :=
  simpleInput "EMP-0001" "IN" T (some 1) (some 1)

/-- A plain OUT request at time `T` without coordinates. -/
def inputOUT (T : Int) : CheckinInput :=
  simpleInput "EMP-0001" "OUT" T none none

/-- The record an IN call at time `T` with coordinates (1, 1) creates. -/
def recIN (T : Int) : CheckinRecord :=
  { employee := "EMP-0001", log_type := "IN", time := T,
    latitude := some 1, longitude := some 1, device_id := none }

/-- The record an OUT call at time `T` without coordinates creates. -/
def recOUT (T : Int) : CheckinRecord :=
  { employee := "EMP-0001", log_type := "OUT", time := T,
    latitude := none, longitude := none, device_id := none }

/-- An IN request carrying a photo payload that decodes to zero bytes. -/
def emptyPhotoInput : CheckinInput :=
  { (inputIN 3600) with location_photo := .str "WS" }

/-- The success payload of an OUT at 7200s with no location check. -/
def outSuccess : SuccessData :=
  { employee := "EMP-0001", log_type := "OUT",
    time := { seconds := 7200, micro := 0, tzOffset := none },
    latitude := none, longitude := none, distance := none,
    location_photo := none, biometric_photo := none }

/-- The success payload of an IN at 3600s at distance 0 from the branch. -/
def inSuccess : SuccessData :=
  { employee := "EMP-0001", log_type := "IN",
    time := { seconds := 3600, micro := 0, tzOffset := none },
    latitude := some 1, longitude := some 1, distance := some 0,
    location_photo := none, biometric_photo := none }

/-- A timezone-aware timestamp (offset +01:00) with nonzero microseconds. -/
def awareStamp : PyDatetime :=
  { seconds := 90000, micro := 123456, tzOffset := some 3600 }

/-- An IN request carrying `awareStamp`. -/
def inputAware : CheckinInput :=
  { (simpleInput "EMP-0001" "IN" 0 (some 1) (some 1)) with
    timestamp := .goodTs awareStamp }

/-! General lemmas about the embedding, shared by the claim theorems. -/

@[simp]
theorem ok_bind {ε α β : Type} (a : α) (f : α → Except ε β) :
    (Except.ok a : Except ε α) >>= f = f a := rfl

@[simp]
theorem error_bind {ε α β : Type} (e : ε) (f : α → Except ε β) :
    (Except.error e : Except ε α) >>= f = .error e := rfl

@[simp]
theorem pure_eq_ok {ε α : Type} (a : α) :
    (pure a : Except ε α) = .ok a := rfl

theorem exceptBind_ok {ε α β : Type} {x : Except ε α} {f : α → Except ε β}
    {b : β} (h : x >>= f = .ok b) : ∃ a, x = .ok a ∧ f a = .ok b := by
  cases x with
  | error e => simp at h
  | ok a => exact ⟨a, rfl, by simpa using h⟩

theorem stageA_ok_inv {env : Env} {store : List CheckinRecord}
    {inp : CheckinInput} {emp : String} {st : Settings} {dq : Option Rat}
    {ct : PyDatetime}
    (h : stageA env store inp = .ok (emp, st, dq, ct)) :
    resolveEmployee env inp.employee_id = .ok emp ∧
    activeStage env emp = .ok () ∧
    logTypeStage inp.log_type = .ok () ∧
    settingsStage env emp = .ok st ∧
    locationStage env st inp.log_type inp.latitude inp.longitude = .ok dq ∧
    photoPresenceOne env st.required_to_upload_location_photo
      (inp.log_type = "IN") inp.location_photo inp.location_photo_id false
      = .ok () ∧
    photoPresenceOne env st.required_to_upload_client_bio_metric_photo
      (inp.log_type = "IN") inp.client_biometric_photo
      inp.client_biometric_photo_id true = .ok () ∧
    parseTimestamp env inp.timestamp = .ok ct ∧
    dayStage store emp inp.log_type ct.seconds = .ok () := by
  unfold stageA at h
  obtain ⟨emp1, h1, h⟩ := exceptBind_ok h
  obtain ⟨u1, h2, h⟩ := exceptBind_ok h
  obtain ⟨u2, h3, h⟩ := exceptBind_ok h
  obtain ⟨st1, h4, h⟩ := exceptBind_ok h
  obtain ⟨dq1, h5, h⟩ := exceptBind_ok h
  obtain ⟨u3, h6, h⟩ := exceptBind_ok h
  obtain ⟨u4, h7, h⟩ := exceptBind_ok h
  obtain ⟨ct1, h8, h⟩ := exceptBind_ok h
  obtain ⟨u5, h9, h⟩ := exceptBind_ok h
  simp at h
  obtain ⟨he, hs, hd, hc⟩ := h
  subst he; subst hs; subst hd; subst hc
  cases u1; cases u2; cases u3; cases u4; cases u5
  exact ⟨h1, h2, h3, h4, h5, h6, h7, h8, h9⟩

theorem dayStage_ok_inv {store : List CheckinRecord} {emp log_type : String}
    {t : Int} (h : dayStage store emp log_type t = .ok ()) :
    (log_type = "OUT" →
      checkinExists store emp "IN" (dayFloor t) (dayFloor t + 86400) = true) ∧
    checkinCount store emp log_type (dayFloor t) (dayFloor t + 86400) = 0 := by
  unfold dayStage at h
  split at h
  · simp at h
  · split at h
    · simp at h
    · rename_i h1 h2
      refine ⟨fun hout => ?_, by omega⟩
      by_contra hex
      exact h1 ⟨hout, by simpa using hex⟩

theorem create_cases (env : Env) (store : List CheckinRecord)
    (inp : CheckinInput) :
    (∃ e, stageA env store inp = .error e ∧
      create_checkin_checkout env store inp = (errResp e, store)) ∨
    (∃ emp st dq ct e, stageA env store inp = .ok (emp, st, dq, ct) ∧
      insertStage env = .error e ∧
      create_checkin_checkout env store inp = (errResp e, store)) ∨
    (∃ emp st dq ct e, stageA env store inp = .ok (emp, st, dq, ct) ∧
      insertStage env = .ok () ∧ photoStage env inp = .error e ∧
      create_checkin_checkout env store inp =
        (errResp e, store ++ [mkRecord emp inp ct])) ∨
    (∃ emp st dq ct lres bres, stageA env store inp = .ok (emp, st, dq, ct) ∧
      insertStage env = .ok () ∧ photoStage env inp = .ok (lres, bres) ∧
      create_checkin_checkout env store inp =
        ({ status := 200
           body := .success
             { employee := emp
               log_type := inp.log_type
               time := ct
               latitude := (mkRecord emp inp ct).latitude
               longitude := (mkRecord emp inp ct).longitude
               distance := dq
               location_photo := photoResId lres
               biometric_photo := photoResId bres } },
         store ++ [mkRecord emp inp ct])) := by
  cases hA : stageA env store inp with
  | error e =>
    exact Or.inl ⟨e, rfl, by unfold create_checkin_checkout; rw [hA]⟩
  | ok q =>
    obtain ⟨emp, st, dq, ct⟩ := q
    cases hB : insertStage env with
    | error e =>
      refine Or.inr (Or.inl ⟨emp, st, dq, ct, e, rfl, rfl, ?_⟩)
      unfold create_checkin_checkout; rw [hA, hB]
    | ok u =>
      cases u
      cases hC : photoStage env inp with
      | error e =>
        refine Or.inr (Or.inr (Or.inl ⟨emp, st, dq, ct, e, rfl, rfl, rfl, ?_⟩))
        unfold create_checkin_checkout; rw [hA, hB, hC]
      | ok p =>
        obtain ⟨lres, bres⟩ := p
        refine Or.inr (Or.inr (Or.inr
          ⟨emp, st, dq, ct, lres, bres, rfl, rfl, rfl, ?_⟩))
        unfold create_checkin_checkout; rw [hA, hB, hC]

theorem create_store_inv (env : Env) (store : List CheckinRecord)
    (inp : CheckinInput) :
    (create_checkin_checkout env store inp).2 = store ∨
    ∃ emp st dq ct, stageA env store inp = .ok (emp, st, dq, ct) ∧
      (create_checkin_checkout env store inp).2 =
        store ++ [mkRecord emp inp ct] := by
  rcases create_cases env store inp with
    ⟨e, _, hE⟩ | ⟨emp, st, dq, ct, e, hA, _, hE⟩ |
    ⟨emp, st, dq, ct, e, hA, _, _, hE⟩ | ⟨emp, st, dq, ct, l, b, hA, _, _, hE⟩
  · left; rw [hE]
  · left; rw [hE]
  · right; exact ⟨emp, st, dq, ct, hA, by rw [hE]⟩
  · right; exact ⟨emp, st, dq, ct, hA, by rw [hE]⟩

theorem same_day_in_window {t T : Int}
    (h : Int.ediv t 86400 = Int.ediv T 86400) :
    dayFloor T ≤ t ∧ t ≤ dayFloor T + 86400 := by
  unfold dayFloor
  have h1 : 86400 * Int.ediv t 86400 + Int.emod t 86400 = t :=
    Int.ediv_add_emod t 86400
  have h2 : 0 ≤ Int.emod t 86400 :=
    Int.emod_nonneg t (by norm_num)
  have h3 : Int.emod t 86400 < 86400 :=
    Int.emod_lt_of_pos t (by norm_num)
  omega

theorem sameDayMatch_iff {emp lt : String} {d : Int} {r : CheckinRecord} :
    sameDayMatch emp lt d r = true ↔
      (r.employee = emp ∧ r.log_type = lt ∧ Int.ediv r.time 86400 = d) := by
  simp [sameDayMatch]

theorem sameDayFilter_nil_of_count {store : List CheckinRecord}
    {emp lt : String} {T : Int}
    (h : checkinCount store emp lt (dayFloor T) (dayFloor T + 86400) = 0) :
    sameDayFilter store emp lt (Int.ediv T 86400) = [] := by
  unfold checkinCount at h
  rw [List.length_eq_zero, List.filter_eq_nil_iff] at h
  unfold sameDayFilter
  rw [List.filter_eq_nil_iff]
  intro r hr hmatch
  rw [sameDayMatch_iff] at hmatch
  obtain ⟨h1, h2, h3⟩ := hmatch
  obtain ⟨h4, h5⟩ := same_day_in_window h3
  exact h r hr (by simp [recMatches, h1, h2, h4, h5])

theorem mkRecord_day {emp : String} {inp : CheckinInput} {ct : PyDatetime} :
    Int.ediv (mkRecord emp inp ct).time 86400 = Int.ediv ct.seconds 86400 := by
  simp [mkRecord]

theorem atMostOne_preserved (env : Env) (store : List CheckinRecord)
    (inp : CheckinInput) (hinv : atMostOnePerDay store) :
    atMostOnePerDay (create_checkin_checkout env store inp).2 := by
  rcases create_store_inv env store inp with h | ⟨emp, st, dq, ct, hA, h⟩
  · rw [h]; exact hinv
  · rw [h]
    intro emp1 lt1 d1
    unfold sameDayFilter
    rw [List.filter_append, List.length_append]
    by_cases hm : sameDayMatch emp1 lt1 d1 (mkRecord emp inp ct) = true
    · have hm' := hm
      rw [sameDayMatch_iff] at hm
      obtain ⟨hm1, hm2, hm3⟩ := hm
      have hday := (stageA_ok_inv hA).2.2.2.2.2.2.2.2
      have hcnt := (dayStage_ok_inv hday).2
      have hnil : sameDayFilter store emp inp.log_type
          (Int.ediv ct.seconds 86400) = [] :=
        sameDayFilter_nil_of_count hcnt
      have hemp1 : emp1 = emp := by simpa [mkRecord] using hm1.symm
      have hlt1 : lt1 = inp.log_type := by simpa [mkRecord] using hm2.symm
      have hd1 : d1 = Int.ediv ct.seconds 86400 := by
        rw [← hm3, mkRecord_day]
      subst hemp1; subst hlt1; subst hd1
      unfold sameDayFilter at hnil
      rw [hnil]
      simp [List.filter_singleton, hm']
    · have hmf : sameDayMatch emp1 lt1 d1 (mkRecord emp inp ct) = false := by
        revert hm
        cases sameDayMatch emp1 lt1 d1 (mkRecord emp inp ct) <;> simp
      have h2 : List.filter (sameDayMatch emp1 lt1 d1)
          [mkRecord emp inp ct] = [] := by
        simp [List.filter_singleton, hmf]
      rw [h2]
      have := hinv emp1 lt1 d1
      unfold sameDayFilter at this
      simpa using this

theorem resolveEmployee_simple {env : Env} {emp : String} (hemp : emp ≠ "")
    (hmem : env.employees.contains emp = true) :
    resolveEmployee env (some emp) = .ok emp := by
  simp [resolveEmployee, hemp]
  simpa using hmem

theorem locationStage_in_ok {env : Env} {st : Settings} {lat lon : Option Rat}
    (hlat : truthyNum lat = true) (hlon : truthyNum lon = true)
    (hlatr : -90 ≤ lat.getD 0 ∧ lat.getD 0 ≤ 90)
    (hlonr : -180 ≤ lon.getD 0 ∧ lon.getD 0 ≤ 180)
    (hd : env.dist st.branch_latitude st.branch_longitude (lat.getD 0)
        (lon.getD 0) ≤ st.branch_radius) :
    locationStage env st "IN" lat lon =
      .ok (some (env.dist st.branch_latitude st.branch_longitude (lat.getD 0)
        (lon.getD 0))) := by
  simp [locationStage, validate_location, hlat, hlon, hlatr.1, hlatr.2,
    hlonr.1, hlonr.2, not_lt.mpr hd]

theorem locationStage_out_skip {env : Env} {st : Settings}
    (lat lon : Option Rat)
    (hflag : st.require_location_check_on_check_out = false) :
    locationStage env st "OUT" lat lon = .ok none := by
  simp [locationStage, hflag]

theorem dayStage_first_in {store : List CheckinRecord} {emp : String}
    {T : Int}
    (h : checkinCount store emp "IN" (dayFloor T) (dayFloor T + 86400) = 0) :
    dayStage store emp "IN" T = .ok () := by
  simp [dayStage, h]

theorem dayStage_second_in {store : List CheckinRecord} {emp : String}
    {T : Int}
    (h : 0 < checkinCount store emp "IN" (dayFloor T) (dayFloor T + 86400)) :
    dayStage store emp "IN" T =
      .error (.validation (.alreadyCompleted true (dayFloor T))) := by
  simp [dayStage, h]

theorem dayStage_out_no_in {store : List CheckinRecord} {emp : String}
    {T : Int}
    (h : checkinExists store emp "IN" (dayFloor T) (dayFloor T + 86400)
      = false) :
    dayStage store emp "OUT" T =
      .error (.validation (.mustCheckInFirst (dayFloor T))) := by
  simp [dayStage, h]

theorem dayStage_out_after_in {store : List CheckinRecord} {emp : String}
    {T : Int}
    (hex : checkinExists store emp "IN" (dayFloor T) (dayFloor T + 86400)
      = true)
    (h : checkinCount store emp "OUT" (dayFloor T) (dayFloor T + 86400) = 0) :
    dayStage store emp "OUT" T = .ok () := by
  simp [dayStage, hex, h]

theorem dayStage_second_out {store : List CheckinRecord} {emp : String}
    {T : Int}
    (hex : checkinExists store emp "IN" (dayFloor T) (dayFloor T + 86400)
      = true)
    (h : 0 < checkinCount store emp "OUT" (dayFloor T) (dayFloor T + 86400)) :
    dayStage store emp "OUT" T =
      .error (.validation (.alreadyCompleted false (dayFloor T))) := by
  simp [dayStage, hex, h]

theorem stageA_simple {env : Env} {emp : String} {st : Settings}
    {dq : Option Rat} (lt : String) (T : Int) (lat lon : Option Rat)
    (store : List CheckinRecord)
    (hemp : emp ≠ "") (hmem : env.employees.contains emp = true)
    (hact : env.activeError emp = none)
    (hset : env.settings emp = .ok st)
    (hlp : st.required_to_upload_location_photo = false)
    (hbp : st.required_to_upload_client_bio_metric_photo = false)
    (hlt : lt = "IN" ∨ lt = "OUT")
    (hloc : locationStage env st lt lat lon = .ok dq) :
    stageA env store (simpleInput emp lt T lat lon) =
      match dayStage store emp lt T with
      | .error e => .error e
      | .ok _ => .ok (emp, st, dq, ⟨T, 0, none⟩) := by
  have hlt2 : ¬¬(lt = "IN" ∨ lt = "OUT") := not_not_intro hlt
  unfold stageA
  simp only [simpleInput]
  rw [resolveEmployee_simple hemp hmem, ok_bind]
  simp only [activeStage, hact, ok_bind]
  simp only [logTypeStage]
  rw [if_neg hlt2, ok_bind]
  simp only [settingsStage, hset, ok_bind]
  rw [hloc, ok_bind]
  simp only [photoPresenceOne, hlp, hbp, if_false, ok_bind]
  simp only [parseTimestamp, processTimestamp, ok_bind]
  cases hd : dayStage store emp lt T with
  | error e => simp
  | ok u => cases u; simp

theorem create_simple {env : Env} {emp : String} {st : Settings}
    {dq : Option Rat} (lt : String) (T : Int) (lat lon : Option Rat)
    (store : List CheckinRecord)
    (hemp : emp ≠ "") (hmem : env.employees.contains emp = true)
    (hact : env.activeError emp = none)
    (hset : env.settings emp = .ok st)
    (hlp : st.required_to_upload_location_photo = false)
    (hbp : st.required_to_upload_client_bio_metric_photo = false)
    (hlt : lt = "IN" ∨ lt = "OUT")
    (hloc : locationStage env st lt lat lon = .ok dq)
    (hins : env.insertError = none) :
    create_checkin_checkout env store (simpleInput emp lt T lat lon) =
      match dayStage store emp lt T with
      | .error e => (errResp e, store)
      | .ok _ =>
        ({ status := 200
           body := .success
             { employee := emp
               log_type := lt
               time := ⟨T, 0, none⟩
               latitude := if truthyNum lat then lat else none
               longitude := if truthyNum lon then lon else none
               distance := dq
               location_photo := none
               biometric_photo := none } },
         store ++
           [{ employee := emp
              log_type := lt
              time := T
              latitude := if truthyNum lat then lat else none
              longitude := if truthyNum lon then lon else none
              device_id := none }]) := by
  unfold create_checkin_checkout
  rw [stageA_simple lt T lat lon store hemp hmem hact hset hlp hbp hlt hloc]
  cases hd : dayStage store emp lt T with
  | error e => rfl
  | ok u =>
    cases u
    simp only [insertStage, hins]
    simp only [photoStage, photoAttach, simpleInput, truthyPhoto, truthyStr,
      mkRecord, photoResId, ok_bind, pure_eq_ok]
    rfl

theorem sanitizeLimit_default {limit : PyNum}
    (h : limit = .pnone ∨ pyToInt limit = none) : sanitizeLimit limit = 100 := by
  rcases h with rfl | h
  · rfl
  · cases limit with
    | pnone => rfl
    | pint n => simp [pyToInt] at h
    | pstr p => simp [pyToInt] at h; simp [sanitizeLimit, pyToInt, h]

theorem sanitizeLimit_small {limit : PyNum} {n : Int}
    (h : pyToInt limit = some n) (hn : n < 1) : sanitizeLimit limit = 100 := by
  cases limit with
  | pnone => simp [pyToInt] at h
  | pint m => simp [pyToInt] at h; subst h; simp [sanitizeLimit, pyToInt, hn]
  | pstr p => simp [pyToInt] at h; subst h; simp [sanitizeLimit, pyToInt, hn]

theorem sanitizeLimit_keep {limit : PyNum} {n : Int}
    (h : pyToInt limit = some n) (hn : 1 ≤ n) : sanitizeLimit limit = n := by
  cases limit with
  | pnone => simp [pyToInt] at h
  | pint m =>
    simp [pyToInt] at h; subst h
    simp [sanitizeLimit, pyToInt, not_lt.mpr hn]
  | pstr p =>
    simp [pyToInt] at h; subst h
    simp [sanitizeLimit, pyToInt, not_lt.mpr hn]

theorem sanitizeOffset_default {offset : PyNum}
    (h : pyToInt offset = none) : sanitizeOffset offset = 0 := by
  simp [sanitizeOffset, h]

theorem sanitizeOffset_neg {offset : PyNum} {n : Int}
    (h : pyToInt offset = some n) (hn : n < 0) : sanitizeOffset offset = 0 := by
  simp [sanitizeOffset, h, hn]

theorem sanitizeOffset_keep {offset : PyNum} {n : Int}
    (h : pyToInt offset = some n) (hn : 0 ≤ n) : sanitizeOffset offset = n := by
  simp [sanitizeOffset, h, not_lt.mpr hn]

/-! Claim theorems. -/

/-- C2 counterexample: the claim quantifies over every latitude in
[-90, 90] and longitude in [-180, 180], but a submitted latitude of exactly
0 — on the equator, within range, and at distance 0 ≤ radius from the branch
under the given distance function — is rejected by `_validate_location` with
the coordinates-required error, because the source tests the coordinates
with Python truthiness (`if not latitude or not longitude`) and `0.0` is
falsy.  So validation does not pass and no distance is returned. -/
theorem C2_counterexample :
    ((-90 : Rat) ≤ 0 ∧ (0 : Rat) ≤ 90) ∧
    ((-180 : Rat) ≤ 10 ∧ (10 : Rat) ≤ 180) ∧
    ((fun _ _ _ _ => (0 : Rat)) 0 10 (0 : Rat) (10 : Rat)) ≤ 100 ∧
    validate_location (some 0) (some 10) 0 10 100 "IN" (fun _ _ _ _ => 0) =
      .error (.coordinatesRequired true) := by
  refine ⟨⟨by norm_num, by norm_num⟩, ⟨by norm_num, by norm_num⟩,
    by norm_num, ?_⟩
  rfl

/-- C2 (amended): for every submitted coordinate pair that is truthy
(nonzero — the source treats `0.0` as missing) with latitude in [-90, 90]
and longitude in [-180, 180], `_validate_location` passes and returns the
computed distance when it is at most the branch radius, and fails with the
radius-exceeded error carrying the computed distance when it exceeds the
radius. -/
theorem C2_validate_location_amended (lat lon blat blon radius : Rat)
    (dist : Rat → Rat → Rat → Rat → Rat) (lt : String)
    (hlat0 : lat ≠ 0) (hlon0 : lon ≠ 0)
    (hlat : -90 ≤ lat ∧ lat ≤ 90) (hlon : -180 ≤ lon ∧ lon ≤ 180) :
    (dist blat blon lat lon ≤ radius →
      validate_location (some lat) (some lon) blat blon radius lt dist =
        .ok (dist blat blon lat lon)) ∧
    (radius < dist blat blon lat lon →
      validate_location (some lat) (some lon) blat blon radius lt dist =
        .error (.radiusExceeded (dist blat blon lat lon) radius
          (lt = "IN"))) := by
  constructor
  · intro hd
    simp [validate_location, truthyNum, hlat0, hlon0, hlat.1, hlat.2,
      hlon.1, hlon.2, not_lt.mpr hd]
  · intro hd
    simp [validate_location, truthyNum, hlat0, hlon0, hlat.1, hlat.2,
      hlon.1, hlon.2, hd]

/-- C2 witness: at (1, 2) with branch radius 100, a reported distance of 50
passes and returns 50, and a reported distance of 200 fails carrying 200. -/
theorem C2_witness :
    validate_location (some 1) (some 2) 0 0 100 "IN" (fun _ _ _ _ => 50) =
      .ok 50 ∧
    validate_location (some 1) (some 2) 0 0 100 "IN" (fun _ _ _ _ => 200) =
      .error (.radiusExceeded 200 100 true) := by
  constructor
  · exact (C2_validate_location_amended 1 2 0 0 100 (fun _ _ _ _ => 50) "IN"
      (by norm_num) (by norm_num) (by norm_num) (by norm_num)).1 (by norm_num)
  · have h := (C2_validate_location_amended 1 2 0 0 100 (fun _ _ _ _ => 200)
      "IN" (by norm_num) (by norm_num) (by norm_num) (by norm_num)).2
      (by norm_num)
    simpa using h

/-- C9: the string coercion of `has_existing_token` treats exactly the
strings with lowercase form "true", "1" or "yes" as true; every other
string — including "false", "no" and the empty string — is false; a boolean
passes through, an integer follows Python truthiness, and `None` is
false. -/
theorem C9_has_existing_token_coercion :
    (∀ s : String, coerce_has_existing_token (.pstr s) = true ↔
      (pyLower s = "true" ∨ pyLower s = "1" ∨ pyLower s = "yes")) ∧
    coerce_has_existing_token (.pstr "false") = false ∧
    coerce_has_existing_token (.pstr "no") = false ∧
    coerce_has_existing_token (.pstr "") = false ∧
    (∀ b : Bool, coerce_has_existing_token (.pbool b) = b) ∧
    (∀ n : Int, coerce_has_existing_token (.pint n) = true ↔ n ≠ 0) ∧
    coerce_has_existing_token .pnone = false := by
  refine ⟨fun s => ?_, by decide, by decide, by decide, fun b => rfl,
    fun n => ?_, rfl⟩
  · simp [coerce_has_existing_token]
  · simp [coerce_has_existing_token]

/-- C9 witness: "TRUE" and "Yes" coerce to true, the integer 2 is truthy. -/
theorem C9_witness :
    coerce_has_existing_token (.pstr "TRUE") = true ∧
    coerce_has_existing_token (.pstr "Yes") = true ∧
    coerce_has_existing_token (.pint 2) = true := by
  refine ⟨(C9_has_existing_token_coercion.1 "TRUE").mpr (by decide),
    (C9_has_existing_token_coercion.1 "Yes").mpr (by decide),
    (C9_has_existing_token_coercion.2.2.2.2.2.1 2).mpr (by decide)⟩

/-- C6: `mobile_login` with a true `has_existing_token` returns the user
document unchanged and no token; with a false one it always stores the
freshly generated secret and returns a generated `api_key:api_secret`
token for which the key is the existing one when the user has a truthy
`api_key` and a freshly generated one otherwise. -/
theorem C6_mobile_login_credentials :
    (∀ (user : UserDoc) (f1 f2 : String),
      mobile_login_credentials (.pbool true) user f1 f2 =
        (user, { token := none, generated := false })) ∧
    (∀ (user : UserDoc) (f1 f2 : String),
      (mobile_login_credentials (.pbool false) user f1 f2).1.api_secret =
        some f1 ∧
      (mobile_login_credentials (.pbool false) user f1 f2).2.generated =
        true ∧
      (truthyStr user.api_key = true →
        (mobile_login_credentials (.pbool false) user f1 f2).1.api_key =
          user.api_key ∧
        (mobile_login_credentials (.pbool false) user f1 f2).2.token =
          some (user.api_key.getD "" ++ ":" ++ f1)) ∧
      (truthyStr user.api_key = false →
        (mobile_login_credentials (.pbool false) user f1 f2).1.api_key =
          some f2 ∧
        (mobile_login_credentials (.pbool false) user f1 f2).2.token =
          some (f2 ++ ":" ++ f1))) := by
  constructor
  · intro user f1 f2; rfl
  · intro user f1 f2
    rcases hk : user.api_key with _ | k
    · simp [mobile_login_credentials, coerce_has_existing_token, truthyStr,
        hk]
    · by_cases hke : k = ""
      · subst hke
        simp [mobile_login_credentials, coerce_has_existing_token,
          truthyStr, hk]
      · simp [mobile_login_credentials, coerce_has_existing_token,
          truthyStr, hk, hke]

/-- C6 witness: with existing credentials and `has_existing_token=false`
the old key is reused with the fresh secret, with no credentials both parts
are fresh, and with `has_existing_token=true` nothing changes. -/
theorem C6_witness :
    mobile_login_credentials (.pbool true) ⟨some "K", some "S"⟩ "NS" "NK" =
      (⟨some "K", some "S"⟩, { token := none, generated := false }) ∧
    (mobile_login_credentials (.pbool false) ⟨some "K", some "S"⟩ "NS"
      "NK").2.token = some "K:NS" ∧
    (mobile_login_credentials (.pbool false) ⟨none, none⟩ "NS"
      "NK").2.token = some "NK:NS" := by
  refine ⟨C6_mobile_login_credentials.1 ⟨some "K", some "S"⟩ "NS" "NK",
    ?_, ?_⟩
  · rw [((C6_mobile_login_credentials.2 ⟨some "K", some "S"⟩ "NS"
      "NK").2.2.1 (by decide)).2]
    decide
  · rw [((C6_mobile_login_credentials.2 ⟨none, none⟩ "NS"
      "NK").2.2.2 (by decide)).2]
    decide

/-- C10: pagination inputs are sanitized, not rejected: a missing,
unparseable or below-1 limit becomes 100, an unparseable or negative offset
becomes 0; the response reports `has_more` exactly when
`offset + limit < total_count` for the sanitized values, and the records
are the slice of at most `limit` rows starting at `offset`. -/
theorem C10_pagination {α : Type} (rows : List α) (limit offset : PyNum) :
    ((limit = .pnone ∨ pyToInt limit = none) →
      (get_employee_checkin_records_page rows limit offset).limit = 100) ∧
    (∀ n, pyToInt limit = some n → n < 1 →
      (get_employee_checkin_records_page rows limit offset).limit = 100) ∧
    (∀ n, pyToInt limit = some n → 1 ≤ n →
      (get_employee_checkin_records_page rows limit offset).limit = n) ∧
    (pyToInt offset = none →
      (get_employee_checkin_records_page rows limit offset).offset = 0) ∧
    (∀ n, pyToInt offset = some n → n < 0 →
      (get_employee_checkin_records_page rows limit offset).offset = 0) ∧
    (∀ n, pyToInt offset = some n → 0 ≤ n →
      (get_employee_checkin_records_page rows limit offset).offset = n) ∧
    (get_employee_checkin_records_page rows limit offset).has_more =
      decide ((get_employee_checkin_records_page rows limit offset).offset +
        (get_employee_checkin_records_page rows limit offset).limit <
        (rows.length : Int)) ∧
    (get_employee_checkin_records_page rows limit offset).total_count =
      rows.length ∧
    (get_employee_checkin_records_page rows limit offset).records =
      (rows.drop
        (get_employee_checkin_records_page rows limit offset).offset.toNat).take
        (get_employee_checkin_records_page rows limit offset).limit.toNat ∧
    (get_employee_checkin_records_page rows limit offset).records.length ≤
      (get_employee_checkin_records_page rows limit offset).limit.toNat := by
  refine ⟨fun h => ?_, fun n h hn => ?_, fun n h hn => ?_, fun h => ?_,
    fun n h hn => ?_, fun n h hn => ?_, rfl, rfl, rfl, ?_⟩
  · simp [get_employee_checkin_records_page, sanitizeLimit_default h]
  · simp [get_employee_checkin_records_page, sanitizeLimit_small h hn]
  · simp [get_employee_checkin_records_page, sanitizeLimit_keep h hn]
  · simp [get_employee_checkin_records_page, sanitizeOffset_default h]
  · simp [get_employee_checkin_records_page, sanitizeOffset_neg h hn]
  · simp [get_employee_checkin_records_page, sanitizeOffset_keep h hn]
  · simp only [get_employee_checkin_records_page]
    exact (List.length_take_le _ _).trans (le_refl _)

/-- C7: photo intake accepts exactly the three input forms — a string
naming an existing `File` (a string that does not look like a data URI and
names no existing file falls through to the base64 path instead), inline
bytes, and base64 text whose data-URI scheme, when present, is stripped at
the first comma before decoding — and the decoded or inline payload is
rejected with a validation error when it decodes to zero bytes or exceeds
5 * 1024 * 1024 bytes.  An empty decode surfaces with the
invalid-image-format message because the source rethrows the inner
empty-photo `ValidationError` from its own `except Exception` handler. -/
theorem C7_photo_intake (env : Env) :
    (∀ s : String, s ≠ "" → startsWithData s = false →
      env.files.contains s = true →
      handle_photo_upload env (.str s) = .ok (some (.fileRef s))) ∧
    (∀ b : List Nat, b ≠ [] → b.length ≤ 5 * 1024 * 1024 →
      handle_photo_upload env (.bytes b) =
        .ok (some (.saved b env.savedFileId))) ∧
    (∀ b : List Nat, 5 * 1024 * 1024 < b.length →
      handle_photo_upload env (.bytes b) =
        .error (.validation .photoTooLarge)) ∧
    (∀ s : String, s ≠ "" → startsWithData s = false →
      env.files.contains s = false →
      handle_photo_upload env (.str s) = b64Outcome env s) ∧
    (∀ (s : String) (pre rest : List Char), startsWithData s = true →
      splitFirstComma s.data = some (pre, rest) →
      handle_photo_upload env (.str s) = b64Outcome env (String.mk rest)) ∧
    (∀ (payload : String) (bs : List Nat), env.b64decode payload = some bs →
      bs ≠ [] → bs.length ≤ 5 * 1024 * 1024 →
      b64Outcome env payload = .ok (some (.saved bs env.savedFileId))) ∧
    (∀ payload : String, env.b64decode payload = some [] →
      b64Outcome env payload = .error (.validation .invalidImageFormat)) ∧
    (∀ (payload : String) (bs : List Nat), env.b64decode payload = some bs →
      5 * 1024 * 1024 < bs.length →
      b64Outcome env payload = .error (.validation .photoTooLarge)) ∧
    (∀ payload : String, env.b64decode payload = none →
      b64Outcome env payload = .error (.validation .invalidImageFormat)) := by
  refine ⟨fun s hs hst hc => ?_, fun b hb hsz => ?_, fun b hsz => ?_,
    fun s hs hst hc => ?_, fun s pre rest hst hsp => ?_,
    fun payload bs hb hbne hsz => ?_, fun payload hb => ?_,
    fun payload bs hb hsz => ?_, fun payload hb => ?_⟩
  · have hmem : s ∈ env.files := by simpa using hc
    simp [handle_photo_upload, truthyPhoto, hs, hst, hmem]
  · simp [handle_photo_upload, truthyPhoto, hb, photoSaveSection,
      List.length_eq_zero, not_lt.mpr hsz]
  · have hb : b ≠ [] := by
      intro hnil; subst hnil; simp at hsz
    simp [handle_photo_upload, truthyPhoto, hb, photoSaveSection,
      List.length_eq_zero, hsz]
  · have hmem : s ∉ env.files := by simpa using hc
    simp only [handle_photo_upload, truthyPhoto]
    rw [if_neg (by simp [hs]), if_neg (by simp [hmem]),
      if_neg (by simp [hst])]
    cases hb : env.b64decode s with
    | none => simp [b64Outcome, hb]
    | some bs =>
      cases bs with
      | nil => simp [b64Outcome, hb]
      | cons x xs => simp [b64Outcome, hb, photoSaveSection]
  · have hs : s ≠ "" := by
      intro hnil
      rw [hnil] at hst
      exact absurd hst (by decide)
    simp only [handle_photo_upload, truthyPhoto]
    rw [if_neg (by simp [hs]), if_neg (by simp [hst]), if_pos hst]
    simp only [stripDataUri, hsp]
    cases hb : env.b64decode (String.mk rest) with
    | none => simp [b64Outcome, hb]
    | some bs =>
      cases bs with
      | nil => simp [b64Outcome, hb]
      | cons x xs => simp [b64Outcome, hb, photoSaveSection]
  · cases bs with
    | nil => exact absurd rfl hbne
    | cons x xs =>
      simp only [b64Outcome, hb]
      rw [if_neg (not_lt.mpr hsz)]
  · simp [b64Outcome, hb]
  · cases bs with
    | nil => simp at hsz
    | cons x xs =>
      simp only [b64Outcome, hb]
      rw [if_pos hsz]
  · simp [b64Outcome, hb]

/-- C7 witness: under `baseEnv` an existing file id is linked, small inline
bytes are saved, oversized bytes are rejected, plain base64 and data-URI
base64 both decode and save, and whitespace-only base64 (zero decoded
bytes) is rejected. -/
theorem C7_witness :
    handle_photo_upload baseEnv (.str "FILE-OK") =
      .ok (some (.fileRef "FILE-OK")) ∧
    handle_photo_upload baseEnv (.bytes [1, 2, 3]) =
      .ok (some (.saved [1, 2, 3] "FILE-NEW")) ∧
    handle_photo_upload baseEnv (.bytes (List.replicate 5242881 0)) =
      .error (.validation .photoTooLarge) ∧
    handle_photo_upload baseEnv (.str "QUJD") =
      .ok (some (.saved [65, 66, 67] "FILE-NEW")) ∧
    handle_photo_upload baseEnv (.str "data:image/png;base64,QUJD") =
      .ok (some (.saved [65, 66, 67] "FILE-NEW")) ∧
    handle_photo_upload baseEnv (.str "WS") =
      .error (.validation .invalidImageFormat) := by
  refine ⟨(C7_photo_intake baseEnv).1 "FILE-OK" (by decide) (by decide)
      (by decide),
    (C7_photo_intake baseEnv).2.1 [1, 2, 3] (by decide) (by decide),
    (C7_photo_intake baseEnv).2.2.1 (List.replicate 5242881 0)
      (by rw [List.length_replicate]; norm_num),
    ((C7_photo_intake baseEnv).2.2.2.1 "QUJD" (by decide) (by decide)
      (by decide)).trans (by decide),
    ((C7_photo_intake baseEnv).2.2.2.2.1 "data:image/png;base64,QUJD"
      "data:image/png;base64".data "QUJD".data (by decide)
      (by decide)).trans (by decide),
    ((C7_photo_intake baseEnv).2.2.2.1 "WS" (by decide) (by decide)
      (by decide)).trans (by decide)⟩

/-- C8: the timestamp stored on the created record has second precision and
is naive UTC — in every success response the stored time has a zero
microsecond field and no timezone, a timezone-aware input is shifted by its
offset, an absent input uses the current time, an unparseable input never
reaches a success — and the persisted record carries exactly that time. -/
theorem C8_timestamp_storage (env : Env) (store : List CheckinRecord)
    (inp : CheckinInput) (s : SuccessData)
    (h : (create_checkin_checkout env store inp).1.body = .success s) :
    s.time.micro = 0 ∧ s.time.tzOffset = none ∧
    (∀ t, inp.timestamp = .goodTs t →
      s.time.seconds = t.seconds - t.tzOffset.getD 0) ∧
    (inp.timestamp = .noTs → s.time.seconds = env.nowSeconds) ∧
    (∀ d, inp.timestamp ≠ .badTs d) ∧
    ∃ r0, (create_checkin_checkout env store inp).2 = store ++ [r0] ∧
      r0.time = s.time.seconds := by
  rcases create_cases env store inp with
    ⟨e, _, hE⟩ | ⟨emp, st, dq, ct, e, _, _, hE⟩ |
    ⟨emp, st, dq, ct, e, _, _, _, hE⟩ |
    ⟨emp, st, dq, ct, lres, bres, hA, _, _, hE⟩
  · rw [hE] at h; cases e <;> simp [errResp] at h
  · rw [hE] at h; cases e <;> simp [errResp] at h
  · rw [hE] at h; cases e <;> simp [errResp] at h
  · rw [hE] at h
    simp only [Body.success.injEq] at h
    have hts := (stageA_ok_inv hA).2.2.2.2.2.2.2.1
    have htime : s.time = ct := by rw [← h]
    have hrec : (create_checkin_checkout env store inp).2 =
        store ++ [mkRecord emp inp ct] := by rw [hE]
    refine ⟨?_, ?_, ?_, ?_, ?_, mkRecord emp inp ct, hrec, ?_⟩
    · rw [htime]
      cases hti : inp.timestamp with
      | noTs => rw [hti] at hts; simp [parseTimestamp] at hts; rw [← hts]
      | goodTs t =>
        rw [hti] at hts; simp [parseTimestamp] at hts
        rw [← hts]
        cases hoff : t.tzOffset <;> simp [processTimestamp, hoff]
      | badTs d => rw [hti] at hts; simp [parseTimestamp] at hts
    · rw [htime]
      cases hti : inp.timestamp with
      | noTs => rw [hti] at hts; simp [parseTimestamp] at hts; rw [← hts]
      | goodTs t =>
        rw [hti] at hts; simp [parseTimestamp] at hts
        rw [← hts]
        cases hoff : t.tzOffset <;> simp [processTimestamp, hoff]
      | badTs d => rw [hti] at hts; simp [parseTimestamp] at hts
    · intro t hti
      rw [hti] at hts; simp [parseTimestamp] at hts
      rw [htime, ← hts]
      cases hoff : t.tzOffset <;> simp [processTimestamp, hoff]
    · intro hti
      rw [hti] at hts; simp [parseTimestamp] at hts
      rw [htime, ← hts]
    · intro d hti
      rw [hti] at hts; simp [parseTimestamp] at hts
    · rw [htime]; simp [mkRecord]

/-- C8 witness: a timezone-aware input at 90000s +01:00 with 123456
microseconds is stored as naive 86400s with zero microseconds, and the
record carries that time. -/
theorem C8_witness :
    (create_checkin_checkout baseEnv [] inputAware).1.body =
      .success
        { employee := "EMP-0001"
          log_type := "IN"
          time := { seconds := 86400, micro := 0, tzOffset := none }
          latitude := some 1
          longitude := some 1
          distance := some 0
          location_photo := none
          biometric_photo := none } ∧
    (86400 : Int) = 90000 - 3600 ∧
    ∃ r0, (create_checkin_checkout baseEnv [] inputAware).2 = [] ++ [r0] ∧
      r0.time = 86400 := by
  have hbody : (create_checkin_checkout baseEnv [] inputAware).1.body =
      .success
        { employee := "EMP-0001"
          log_type := "IN"
          time := { seconds := 86400, micro := 0, tzOffset := none }
          latitude := some 1
          longitude := some 1
          distance := some 0
          location_photo := none
          biometric_photo := none } := by decide
  have hparts := C8_timestamp_storage baseEnv [] inputAware _ hbody
  obtain ⟨r0, hr0, hrt⟩ := hparts.2.2.2.2.2
  exact ⟨hbody, by norm_num, r0, hr0, by simpa using hrt⟩

/-- C10 witness: an unparseable limit and a negative offset on a three-row
table become 100 and 0, the full slice is returned and `has_more` is
false. -/
theorem C10_witness :
    (get_employee_checkin_records_page [10, 20, 30] (.pstr none)
      (.pint (-5))).limit = 100 ∧
    (get_employee_checkin_records_page [10, 20, 30] (.pstr none)
      (.pint (-5))).offset = 0 ∧
    (get_employee_checkin_records_page [10, 20, 30] (.pstr none)
      (.pint (-5))).records = [10, 20, 30] ∧
    (get_employee_checkin_records_page [10, 20, 30] (.pstr none)
      (.pint (-5))).has_more = false := by
  refine ⟨(C10_pagination [10, 20, 30] (.pstr none) (.pint (-5))).1
      (Or.inr rfl),
    (C10_pagination [10, 20, 30] (.pstr none) (.pint (-5))).2.2.2.2.1
      (-5) rfl (by norm_num), by decide, by decide⟩

theorem exceptBind_error {ε α β : Type} {x : Except ε α}
    {f : α → Except ε β} {e : ε} (h : x >>= f = .error e) :
    x = .error e ∨ ∃ a, x = .ok a ∧ f a = .error e := by
  cases x with
  | error e1 =>
    have he : e1 = e := by simpa using h
    subst he; exact Or.inl rfl
  | ok a => exact Or.inr ⟨a, rfl, by simpa using h⟩

theorem resolveEmployee_error {env : Env} {oid : Option String} {e : Err}
    (h : resolveEmployee env oid = .error e) :
    e = .validation .employeeNotFound ∨ e = .validation .noUserEmail ∨
      e = .validation .employeeNotFoundForEmail := by
  have hfe : ∀ e1 : Err, resolveEmployeeFromEmail env = .error e1 →
      e1 = .validation .noUserEmail ∨
        e1 = .validation .employeeNotFoundForEmail := by
    intro e1 h1
    unfold resolveEmployeeFromEmail at h1
    split at h1
    · exact Or.inl (Except.error.inj h1).symm
    · split at h1
      · exact Or.inl (Except.error.inj h1).symm
      · split at h1
        · exact Or.inr (Except.error.inj h1).symm
        · simp at h1
  unfold resolveEmployee at h
  split at h
  · split at h
    · exact Or.inr (hfe e h)
    · split at h
      · simp at h
      · exact Or.inl (Except.error.inj h).symm
  · exact Or.inr (hfe e h)

theorem activeStage_error {env : Env} {emp : String} {e : Err}
    (h : activeStage env emp = .error e) :
    ∃ d, e = .validation (.inactiveEmployee d) := by
  unfold activeStage at h
  split at h
  · exact ⟨_, (Except.error.inj h).symm⟩
  · simp at h

theorem logTypeStage_error {lt : String} {e : Err}
    (h : logTypeStage lt = .error e) : e = .validation .invalidLogType := by
  unfold logTypeStage at h
  split at h
  · exact (Except.error.inj h).symm
  · simp at h

theorem settingsStage_error {env : Env} {emp : String} {e : Err}
    (h : settingsStage env emp = .error e) :
    ∃ d, e = .validation (.settingsError d) := by
  unfold settingsStage at h
  split at h
  · exact ⟨_, (Except.error.inj h).symm⟩
  · simp at h

theorem locationStage_error {env : Env} {st : Settings} {lt : String}
    {lat lon : Option Rat} {e : Err}
    (h : locationStage env st lt lat lon = .error e) :
    ∃ m, e = .validation m ∧ locationMsg m := by
  have hv : ∀ m : Msg,
      validate_location lat lon st.branch_latitude st.branch_longitude
        st.branch_radius lt env.dist = .error m → locationMsg m := by
    intro m hm
    unfold validate_location at hm
    split at hm
    · rw [← Except.error.inj hm]; trivial
    · split at hm
      · rw [← Except.error.inj hm]; trivial
      · split at hm
        · rw [← Except.error.inj hm]; trivial
        · split at hm
          · rw [← Except.error.inj hm]; trivial
          · simp at hm
  unfold locationStage at h
  split at h
  · split at h
    · exact ⟨_, (Except.error.inj h).symm, trivial⟩
    · split at h
      · rename_i m hm
        exact ⟨m, (Except.error.inj h).symm, hv m hm⟩
      · simp at h
  · split at h
    · split at h
      · exact ⟨_, (Except.error.inj h).symm, trivial⟩
      · split at h
        · rename_i m hm
          exact ⟨m, (Except.error.inj h).symm, hv m hm⟩
        · simp at h
    · simp at h

theorem photoPresenceOne_error {env : Env} {req isIn : Bool}
    {photo : PhotoData} {pid : Option String} {bio : Bool} {e : Err}
    (h : photoPresenceOne env req isIn photo pid bio = .error e) :
    e = .direct (.photoRequired bio isIn) ∨
      e = .validation (.photoNotFound bio) := by
  unfold photoPresenceOne at h
  split at h
  · split at h
    · exact Or.inl (Except.error.inj h).symm
    · split at h
      · exact Or.inr (Except.error.inj h).symm
      · simp at h
  · simp at h

theorem parseTimestamp_error {env : Env} {ts : TsInput} {e : Err}
    (h : parseTimestamp env ts = .error e) :
    ∃ d, e = .validation (.invalidTimestamp d) := by
  cases ts with
  | noTs => simp [parseTimestamp] at h
  | goodTs t => simp [parseTimestamp] at h
  | badTs d => exact ⟨d, (Except.error.inj h).symm⟩

theorem dayStage_error {store : List CheckinRecord} {emp lt : String}
    {t : Int} {e : Err} (h : dayStage store emp lt t = .error e) :
    e = .validation (.mustCheckInFirst (dayFloor t)) ∨
      e = .validation (.alreadyCompleted (lt = "IN") (dayFloor t)) := by
  unfold dayStage at h
  split at h
  · exact Or.inl (Except.error.inj h).symm
  · split at h
    · exact Or.inr (Except.error.inj h).symm
    · simp at h

theorem insertStage_error {env : Env} {e : Err}
    (h : insertStage env = .error e) :
    e = .validation .duplicateTimestamp ∨
      e = .validation .duplicateTimestampRetry ∨
      ∃ d, e = .validation (.errorCreating d) := by
  unfold insertStage at h
  split at h
  · simp at h
  · exact Or.inl (Except.error.inj h).symm
  · exact Or.inr (Or.inl (Except.error.inj h).symm)
  · exact Or.inr (Or.inr ⟨_, (Except.error.inj h).symm⟩)

theorem photoSaveSection_error {env : Env} {bs : List Nat} {e : Err}
    (h : photoSaveSection env bs = .error e) :
    e = .validation .photoFileEmpty ∨ e = .validation .photoTooLarge := by
  unfold photoSaveSection at h
  split at h
  · exact Or.inl (Except.error.inj h).symm
  · split at h
    · exact Or.inr (Except.error.inj h).symm
    · simp at h

theorem stripDataUri_error {s : String} {e : Err}
    (h : stripDataUri s = .error e) : e = .unexpected := by
  unfold stripDataUri at h
  split at h
  · simp at h
  · exact (Except.error.inj h).symm

theorem handle_photo_upload_error {env : Env} {p : PhotoData} {e : Err}
    (h : handle_photo_upload env p = .error e) : photoErr e := by
  unfold handle_photo_upload at h
  split at h
  · simp at h
  · split at h
    · simp at h
    · rename_i s
      split at h
      · simp at h
      · split at h
        · rename_i e1 heq
          have he1 : e1 = .unexpected := by
            split at heq
            · exact stripDataUri_error heq
            · simp at heq
          rw [← Except.error.inj h, he1]
          exact Or.inr (Or.inr (Or.inr rfl))
        · split at h
          · exact Or.inl (Except.error.inj h).symm
          · split at h
            · exact Or.inl (Except.error.inj h).symm
            · rcases photoSaveSection_error h with h1 | h1
              · exact Or.inr (Or.inl h1)
              · exact Or.inr (Or.inr (Or.inl h1))
    · rcases photoSaveSection_error h with h1 | h1
      · exact Or.inr (Or.inl h1)
      · exact Or.inr (Or.inr (Or.inl h1))

theorem photoAttach_error {env : Env} {p : PhotoData} {pid : Option String}
    {e : Err} (h : photoAttach env p pid = .error e) : photoErr e := by
  unfold photoAttach at h
  split at h
  · exact handle_photo_upload_error h
  · split at h
    · simp at h
    · simp at h

theorem photoStage_error {env : Env} {inp : CheckinInput} {e : Err}
    (h : photoStage env inp = .error e) : photoErr e := by
  unfold photoStage at h
  rcases exceptBind_error h with h | ⟨l, _, h⟩
  · exact photoAttach_error h
  · rcases exceptBind_error h with h | ⟨b, _, h⟩
    · exact photoAttach_error h
    · simp at h

theorem validate_location_ok_inv {lat lon : Option Rat}
    {blat blon r : Rat} {lt : String}
    {dist : Rat → Rat → Rat → Rat → Rat} {d : Rat}
    (h : validate_location lat lon blat blon r lt dist = .ok d) :
    d = dist blat blon (lat.getD 0) (lon.getD 0) ∧ d ≤ r := by
  unfold validate_location at h
  split at h
  · simp at h
  · split at h
    · simp at h
    · split at h
      · simp at h
      · split at h
        · simp at h
        · rename_i hnr
          have hd : d = dist blat blon (lat.getD 0) (lon.getD 0) :=
            (Except.ok.inj h).symm
          refine ⟨hd, ?_⟩
          rw [hd]
          exact not_lt.mp hnr

theorem locationStage_ok_in_inv {env : Env} {st : Settings}
    {lat lon : Option Rat} {dq : Option Rat}
    (h : locationStage env st "IN" lat lon = .ok dq) :
    ∃ d, dq = some d ∧
      d = env.dist st.branch_latitude st.branch_longitude (lat.getD 0)
        (lon.getD 0) ∧
      d ≤ st.branch_radius := by
  unfold locationStage at h
  rw [if_pos rfl] at h
  split at h
  · simp at h
  · split at h
    · simp at h
    · rename_i d hd
      obtain ⟨h1, h2⟩ := validate_location_ok_inv hd
      exact ⟨d, (Except.ok.inj h).symm, h1, h2⟩

theorem locationStage_ok_out_inv {env : Env} {st : Settings}
    {lat lon : Option Rat} {dq : Option Rat}
    (hflag : st.require_location_check_on_check_out = true)
    (h : locationStage env st "OUT" lat lon = .ok dq) :
    ∃ d, dq = some d ∧
      d = env.dist st.branch_latitude st.branch_longitude (lat.getD 0)
        (lon.getD 0) ∧
      d ≤ st.branch_radius := by
  unfold locationStage at h
  rw [if_neg (by decide), if_pos hflag] at h
  split at h
  · simp at h
  · split at h
    · simp at h
    · rename_i d hd
      obtain ⟨h1, h2⟩ := validate_location_ok_inv hd
      exact ⟨d, (Except.ok.inj h).symm, h1, h2⟩

theorem locationStage_in_falsy {env : Env} {st : Settings}
    {lat lon : Option Rat}
    (h : ¬(truthyNum lat = true ∧ truthyNum lon = true)) :
    locationStage env st "IN" lat lon =
      .error (.validation (.locationRequired true)) := by
  unfold locationStage
  rw [if_pos rfl, if_pos h]

theorem locationStage_out_falsy {env : Env} {st : Settings}
    {lat lon : Option Rat}
    (hflag : st.require_location_check_on_check_out = true)
    (h : ¬(truthyNum lat = true ∧ truthyNum lon = true)) :
    locationStage env st "OUT" lat lon =
      .error (.validation (.locationRequired false)) := by
  unfold locationStage
  rw [if_neg (by decide), if_pos hflag, if_pos h]

theorem stageA_location_error {env : Env} {store : List CheckinRecord}
    {inp : CheckinInput} {emp : String} {st : Settings} {e : Err}
    (hemp : resolveEmployee env inp.employee_id = .ok emp)
    (hact : env.activeError emp = none)
    (hlog : logTypeStage inp.log_type = .ok ())
    (hset : env.settings emp = .ok st)
    (hloc : locationStage env st inp.log_type inp.latitude inp.longitude =
      .error e) :
    stageA env store inp = .error e := by
  unfold stageA
  rw [hemp, ok_bind]
  simp only [activeStage, hact, ok_bind]
  rw [hlog, ok_bind]
  simp only [settingsStage, hset, ok_bind]
  rw [hloc, error_bind]

theorem stageA_error_class {env : Env} {store : List CheckinRecord}
    {inp : CheckinInput} {e : Err}
    (h : stageA env store inp = .error e) :
    (∃ m, e = .validation m) ∨ ∃ b i, e = .direct (.photoRequired b i) := by
  unfold stageA at h
  rcases exceptBind_error h with h | ⟨emp, _, h⟩
  · rcases resolveEmployee_error h with h1 | h1 | h1 <;> exact Or.inl ⟨_, h1⟩
  · rcases exceptBind_error h with h | ⟨u, _, h⟩
    · obtain ⟨d, h1⟩ := activeStage_error h; exact Or.inl ⟨_, h1⟩
    · rcases exceptBind_error h with h | ⟨u2, _, h⟩
      · exact Or.inl ⟨_, logTypeStage_error h⟩
      · rcases exceptBind_error h with h | ⟨st, _, h⟩
        · obtain ⟨d, h1⟩ := settingsStage_error h; exact Or.inl ⟨_, h1⟩
        · rcases exceptBind_error h with h | ⟨dq, _, h⟩
          · obtain ⟨m, h1, _⟩ := locationStage_error h; exact Or.inl ⟨_, h1⟩
          · rcases exceptBind_error h with h | ⟨u3, _, h⟩
            · rcases photoPresenceOne_error h with h1 | h1
              · exact Or.inr ⟨_, _, h1⟩
              · exact Or.inl ⟨_, h1⟩
            · rcases exceptBind_error h with h | ⟨u4, _, h⟩
              · rcases photoPresenceOne_error h with h1 | h1
                · exact Or.inr ⟨_, _, h1⟩
                · exact Or.inl ⟨_, h1⟩
              · rcases exceptBind_error h with h | ⟨ct, _, h⟩
                · obtain ⟨d, h1⟩ := parseTimestamp_error h
                  exact Or.inl ⟨_, h1⟩
                · rcases exceptBind_error h with h | ⟨u5, _, h⟩
                  · rcases dayStage_error h with h1 | h1 <;>
                      exact Or.inl ⟨_, h1⟩
                  · simp at h

theorem stageA_error_no_location {env : Env} {store : List CheckinRecord}
    {inp : CheckinInput} {emp : String} {st : Settings} {dq : Option Rat}
    {e : Err}
    (hemp : resolveEmployee env inp.employee_id = .ok emp)
    (hact : env.activeError emp = none)
    (hlog : logTypeStage inp.log_type = .ok ())
    (hset : env.settings emp = .ok st)
    (hloc : locationStage env st inp.log_type inp.latitude inp.longitude =
      .ok dq)
    (h : stageA env store inp = .error e) :
    ∃ m, (e = .validation m ∨ e = .direct m) ∧ ¬locationMsg m := by
  unfold stageA at h
  rcases exceptBind_error h with h | ⟨emp1, he, h⟩
  · rw [hemp] at h; simp at h
  · rw [hemp] at he
    injection he with he
    subst he
    rcases exceptBind_error h with h | ⟨u, _, h⟩
    · simp [activeStage, hact] at h
    · rcases exceptBind_error h with h | ⟨u2, _, h⟩
      · rw [hlog] at h; simp at h
      · rcases exceptBind_error h with h | ⟨st1, hst1, h⟩
        · simp [settingsStage, hset] at h
        · simp only [settingsStage, hset] at hst1
          injection hst1 with hst1
          subst hst1
          rcases exceptBind_error h with h | ⟨dq1, _, h⟩
          · rw [hloc] at h; simp at h
          · rcases exceptBind_error h with h | ⟨u3, _, h⟩
            · rcases photoPresenceOne_error h with h1 | h1
              · exact ⟨_, Or.inr h1, fun hx => hx⟩
              · exact ⟨_, Or.inl h1, fun hx => hx⟩
            · rcases exceptBind_error h with h | ⟨u4, _, h⟩
              · rcases photoPresenceOne_error h with h1 | h1
                · exact ⟨_, Or.inr h1, fun hx => hx⟩
                · exact ⟨_, Or.inl h1, fun hx => hx⟩
              · rcases exceptBind_error h with h | ⟨ct, _, h⟩
                · obtain ⟨d, h1⟩ := parseTimestamp_error h
                  exact ⟨_, Or.inl h1, fun hx => hx⟩
                · rcases exceptBind_error h with h | ⟨u5, _, h⟩
                  · rcases dayStage_error h with h1 | h1
                    · exact ⟨_, Or.inl h1, fun hx => hx⟩
                    · exact ⟨_, Or.inl h1, fun hx => hx⟩
                  · simp at h

theorem errResp_body (e : Err) : (errResp e).body = .exception (msgOf e) := by
  cases e <;> rfl

theorem create_exception_source {env : Env} {store : List CheckinRecord}
    {inp : CheckinInput} {m : Msg}
    (hm : (create_checkin_checkout env store inp).1.body = .exception m) :
    (∃ e, stageA env store inp = .error e ∧ msgOf e = m ∧
      (create_checkin_checkout env store inp).2 = store) ∨
    (∃ e, insertStage env = .error e ∧ msgOf e = m ∧
      (create_checkin_checkout env store inp).2 = store) ∨
    (∃ e, photoStage env inp = .error e ∧ msgOf e = m) := by
  rcases create_cases env store inp with
    ⟨e, hA, hE⟩ | ⟨emp, st, dq, ct, e, hA, hB, hE⟩ |
    ⟨emp, st, dq, ct, e, hA, hB, hC, hE⟩ |
    ⟨emp, st, dq, ct, l, b, hA, hB, hC, hE⟩
  · rw [hE] at hm
    rw [errResp_body] at hm
    injection hm with hm
    exact Or.inl ⟨e, hA, hm, by rw [hE]⟩
  · rw [hE] at hm
    rw [errResp_body] at hm
    injection hm with hm
    exact Or.inr (Or.inl ⟨e, hB, hm, by rw [hE]⟩)
  · rw [hE] at hm
    rw [errResp_body] at hm
    injection hm with hm
    exact Or.inr (Or.inr ⟨e, hC, hm⟩)
  · rw [hE] at hm
    simp at hm

/-- C3: an IN always runs geofence validation — falsy coordinates are
rejected with the location-required error and every IN success carries a
distance that was computed and checked against the branch radius — while an
OUT runs it exactly when `require_location_check_on_check_out` is true;
with the flag false an OUT can fail with no location-family error, has no
coordinate requirement, and its success response carries no distance. -/
theorem C3_location_policy (env : Env) (store : List CheckinRecord)
    (inp : CheckinInput) (emp : String) (st : Settings)
    (hemp : resolveEmployee env inp.employee_id = .ok emp)
    (hact : env.activeError emp = none)
    (hset : env.settings emp = .ok st) :
    (inp.log_type = "OUT" →
      st.require_location_check_on_check_out = false →
      (∀ s, (create_checkin_checkout env store inp).1.body = .success s →
        s.distance = none) ∧
      (∀ m, (create_checkin_checkout env store inp).1.body = .exception m →
        ¬locationMsg m)) ∧
    (inp.log_type = "IN" →
      ¬(truthyNum inp.latitude = true ∧ truthyNum inp.longitude = true) →
      (create_checkin_checkout env store inp).1 =
        { status := 401, body := .exception (.locationRequired true) } ∧
      (create_checkin_checkout env store inp).2 = store) ∧
    (inp.log_type = "IN" →
      ∀ s, (create_checkin_checkout env store inp).1.body = .success s →
        ∃ d, s.distance = some d ∧
          d = env.dist st.branch_latitude st.branch_longitude
            (inp.latitude.getD 0) (inp.longitude.getD 0) ∧
          d ≤ st.branch_radius) ∧
    (inp.log_type = "OUT" →
      st.require_location_check_on_check_out = true →
      ¬(truthyNum inp.latitude = true ∧ truthyNum inp.longitude = true) →
      (create_checkin_checkout env store inp).1 =
        { status := 401, body := .exception (.locationRequired false) } ∧
      (create_checkin_checkout env store inp).2 = store) ∧
    (inp.log_type = "OUT" →
      st.require_location_check_on_check_out = true →
      ∀ s, (create_checkin_checkout env store inp).1.body = .success s →
        ∃ d, s.distance = some d ∧
          d = env.dist st.branch_latitude st.branch_longitude
            (inp.latitude.getD 0) (inp.longitude.getD 0) ∧
          d ≤ st.branch_radius) := by
  refine ⟨fun hout hflag => ⟨fun s hs => ?_, fun m hm => ?_⟩,
    fun hin hfal => ?_, fun hin s hs => ?_,
    fun hout hflag hfal => ?_, fun hout hflag s hs => ?_⟩
  · rcases create_cases env store inp with
      ⟨e, _, hE⟩ | ⟨emp1, st1, dq, ct, e, _, _, hE⟩ |
      ⟨emp1, st1, dq, ct, e, _, _, _, hE⟩ |
      ⟨emp1, st1, dq, ct, l, b, hA, _, _, hE⟩
    · rw [hE, errResp_body] at hs; simp at hs
    · rw [hE, errResp_body] at hs; simp at hs
    · rw [hE, errResp_body] at hs; simp at hs
    · rw [hE] at hs
      simp only [Body.success.injEq] at hs
      obtain ⟨he1, _, _, he4, he5, _⟩ := stageA_ok_inv hA
      rw [hemp] at he1
      injection he1 with he1
      subst he1
      simp only [settingsStage, hset] at he4
      injection he4 with he4
      subst he4
      have hloc : locationStage env st inp.log_type inp.latitude
          inp.longitude = .ok none := by
        rw [hout]
        exact locationStage_out_skip inp.latitude inp.longitude hflag
      rw [hloc] at he5
      injection he5 with he5
      rw [← hs]
      exact he5.symm
  · have hlog : logTypeStage inp.log_type = .ok () := by
      rw [hout]; rfl
    have hloc : locationStage env st inp.log_type inp.latitude
        inp.longitude = .ok none := by
      rw [hout]
      exact locationStage_out_skip inp.latitude inp.longitude hflag
    rcases create_exception_source hm with
      ⟨e, hA, hmsg, _⟩ | ⟨e, hB, hmsg, _⟩ | ⟨e, hC, hmsg⟩
    · obtain ⟨m1, hv, hnl⟩ :=
        stageA_error_no_location hemp hact hlog hset hloc hA
      rcases hv with hv | hv <;>
        (subst hv; simp only [msgOf] at hmsg; subst hmsg; exact hnl)
    · rcases insertStage_error hB with h1 | h1 | ⟨d, h1⟩ <;>
        (subst h1; simp only [msgOf] at hmsg; subst hmsg;
         exact fun hx => hx)
    · rcases photoStage_error hC with h1 | h1 | h1 | h1 <;>
        (subst h1; simp only [msgOf] at hmsg; subst hmsg;
         exact fun hx => hx)
  · have hlog : logTypeStage inp.log_type = .ok () := by
      rw [hin]; rfl
    have hloc : locationStage env st inp.log_type inp.latitude
        inp.longitude = .error (.validation (.locationRequired true)) := by
      rw [hin]; exact locationStage_in_falsy hfal
    have hA := @stageA_location_error env store inp emp st _
      hemp hact hlog hset hloc
    have hE : create_checkin_checkout env store inp =
        (errResp (.validation (.locationRequired true)), store) := by
      unfold create_checkin_checkout; rw [hA]
    rw [hE]
    exact ⟨rfl, rfl⟩
  · rcases create_cases env store inp with
      ⟨e, _, hE⟩ | ⟨emp1, st1, dq, ct, e, _, _, hE⟩ |
      ⟨emp1, st1, dq, ct, e, _, _, _, hE⟩ |
      ⟨emp1, st1, dq, ct, l, b, hA, _, _, hE⟩
    · rw [hE, errResp_body] at hs; simp at hs
    · rw [hE, errResp_body] at hs; simp at hs
    · rw [hE, errResp_body] at hs; simp at hs
    · rw [hE] at hs
      simp only [Body.success.injEq] at hs
      obtain ⟨he1, _, _, he4, he5, _⟩ := stageA_ok_inv hA
      rw [hemp] at he1
      injection he1 with he1
      subst he1
      simp only [settingsStage, hset] at he4
      injection he4 with he4
      subst he4
      rw [hin] at he5
      obtain ⟨d, hdq, hd, hle⟩ := locationStage_ok_in_inv he5
      refine ⟨d, ?_, hd, hle⟩
      rw [← hs]
      exact hdq
  · have hlog : logTypeStage inp.log_type = .ok () := by
      rw [hout]; rfl
    have hloc : locationStage env st inp.log_type inp.latitude
        inp.longitude = .error (.validation (.locationRequired false)) := by
      rw [hout]; exact locationStage_out_falsy hflag hfal
    have hA := @stageA_location_error env store inp emp st _
      hemp hact hlog hset hloc
    have hE : create_checkin_checkout env store inp =
        (errResp (.validation (.locationRequired false)), store) := by
      unfold create_checkin_checkout; rw [hA]
    rw [hE]
    exact ⟨rfl, rfl⟩
  · rcases create_cases env store inp with
      ⟨e, _, hE⟩ | ⟨emp1, st1, dq, ct, e, _, _, hE⟩ |
      ⟨emp1, st1, dq, ct, e, _, _, _, hE⟩ |
      ⟨emp1, st1, dq, ct, l, b, hA, _, _, hE⟩
    · rw [hE, errResp_body] at hs; simp at hs
    · rw [hE, errResp_body] at hs; simp at hs
    · rw [hE, errResp_body] at hs; simp at hs
    · rw [hE] at hs
      simp only [Body.success.injEq] at hs
      obtain ⟨he1, _, _, he4, he5, _⟩ := stageA_ok_inv hA
      rw [hemp] at he1
      injection he1 with he1
      subst he1
      simp only [settingsStage, hset] at he4
      injection he4 with he4
      subst he4
      rw [hout] at he5
      obtain ⟨d, hdq, hd, hle⟩ := locationStage_ok_out_inv hflag he5
      refine ⟨d, ?_, hd, hle⟩
      rw [← hs]
      exact hdq

/-- C3 witness: under `baseEnv` (checkout location check off) an OUT after
an IN succeeds with no distance in the response, an IN without coordinates
fails requiring location, an IN at distance 0 succeeds with a distance
within the radius; under `outReqEnv` an OUT without coordinates fails
requiring location. -/
theorem C3_witness :
    (create_checkin_checkout baseEnv [recIN 3600] (inputOUT 7200)).1.body =
      .success outSuccess ∧
    outSuccess.distance = none ∧
    (create_checkin_checkout baseEnv []
      (simpleInput "EMP-0001" "IN" 0 none none)).1 =
      { status := 401, body := .exception (.locationRequired true) } ∧
    (create_checkin_checkout outReqEnv [recIN 3600] (inputOUT 7200)).1 =
      { status := 401, body := .exception (.locationRequired false) } ∧
    (create_checkin_checkout baseEnv [] (inputIN 3600)).1.body =
      .success inSuccess ∧
    (∃ d, inSuccess.distance = some d ∧
      d ≤ plainSettings.branch_radius) := by
  refine ⟨by decide, ?_, ?_, ?_, by decide, ?_⟩
  · exact ((C3_location_policy baseEnv [recIN 3600] (inputOUT 7200)
      "EMP-0001" plainSettings (by decide) rfl rfl).1 rfl rfl).1
      outSuccess (by decide)
  · exact ((C3_location_policy baseEnv []
      (simpleInput "EMP-0001" "IN" 0 none none) "EMP-0001" plainSettings
      (by decide) rfl rfl).2.1 rfl (by decide)).1
  · exact ((C3_location_policy outReqEnv [recIN 3600] (inputOUT 7200)
      "EMP-0001" outReqSettings (by decide) rfl rfl).2.2.2.1 rfl rfl
      (by decide)).1
  · obtain ⟨d, hdq, _, hle⟩ := (C3_location_policy baseEnv []
      (inputIN 3600) "EMP-0001" plainSettings (by decide) rfl
      rfl).2.2.1 rfl inSuccess (by decide)
    exact ⟨d, hdq, hle⟩

/-- C4 counterexample: with a required location photo and none submitted,
the endpoint returns the `{"exception": ...}` body by a direct `return`
inside the `try` block, so the HTTP status stays at its default 200 instead
of the 401 the claim asserts for every validation-type failure including
the required-photo-missing case. -/
theorem C4_counterexample :
    create_checkin_checkout photoReqEnv [] (inputIN 3600) =
      ({ status := 200, body := .exception (.photoRequired false true) },
        []) ∧
    (200 : Nat) ≠ 401 :=
  ⟨by decide, by decide⟩

/-- C4 (amended): `create_checkin_checkout` never lets an error escape —
every call returns either a success with status 200, or an
`{"exception": message}` body where a raised validation-type failure (bad
input, business-rule violation, not-found, geofence-exceeded) carries
status 401, the required-photo-missing case is returned directly with the
default status 200, and an unexpected error is returned as the generic
message with status 500. -/
theorem C4_error_contract (env : Env) (store : List CheckinRecord)
    (inp : CheckinInput) :
    (∃ s, (create_checkin_checkout env store inp).1 =
      { status := 200, body := .success s }) ∨
    (∃ m, (create_checkin_checkout env store inp).1.body = .exception m ∧
      ((create_checkin_checkout env store inp).1.status = 401 ∨
       ((create_checkin_checkout env store inp).1.status = 200 ∧
         ∃ b i, m = .photoRequired b i) ∨
       ((create_checkin_checkout env store inp).1.status = 500 ∧
         m = .genericError))) := by
  rcases create_cases env store inp with
    ⟨e, hA, hE⟩ | ⟨emp, st, dq, ct, e, hA, hB, hE⟩ |
    ⟨emp, st, dq, ct, e, hA, hB, hC, hE⟩ |
    ⟨emp, st, dq, ct, l, b, hA, hB, hC, hE⟩
  · rcases stageA_error_class hA with ⟨m, hv⟩ | ⟨bio, isIn, hv⟩
    · subst hv
      exact Or.inr ⟨m, by rw [hE]; rfl, Or.inl (by rw [hE]; rfl)⟩
    · subst hv
      exact Or.inr ⟨.photoRequired bio isIn, by rw [hE]; rfl,
        Or.inr (Or.inl ⟨by rw [hE]; rfl, bio, isIn, rfl⟩)⟩
  · rcases insertStage_error hB with h1 | h1 | ⟨d, h1⟩ <;>
      (subst h1;
       exact Or.inr ⟨_, by rw [hE]; rfl, Or.inl (by rw [hE]; rfl)⟩)
  · rcases photoStage_error hC with h1 | h1 | h1 | h1
    · subst h1
      exact Or.inr ⟨_, by rw [hE]; rfl, Or.inl (by rw [hE]; rfl)⟩
    · subst h1
      exact Or.inr ⟨_, by rw [hE]; rfl, Or.inl (by rw [hE]; rfl)⟩
    · subst h1
      exact Or.inr ⟨_, by rw [hE]; rfl, Or.inl (by rw [hE]; rfl)⟩
    · subst h1
      exact Or.inr ⟨.genericError, by rw [hE]; rfl,
        Or.inr (Or.inr ⟨by rw [hE]; rfl, rfl⟩)⟩
  · exact Or.inl ⟨_, by rw [hE]⟩

/-- C5 counterexample: a call whose submitted photo decodes to zero bytes
returns a failure response, yet the check-in record it created before the
photo step is persisted — the photo content validation runs after
`insert()` and `frappe.db.commit()`. -/
theorem C5_counterexample :
    (create_checkin_checkout baseEnv [] emptyPhotoInput).1 =
      { status := 401, body := .exception .invalidImageFormat } ∧
    (create_checkin_checkout baseEnv [] emptyPhotoInput).2 =
      [recIN 3600] ∧
    ([recIN 3600] : List CheckinRecord) ≠ [] :=
  ⟨by decide, by decide, by decide⟩

/-- C5 (amended): every validation performed before record insertion —
employee resolution, the active check, log type, settings, coordinates,
required-photo presence, timestamp parsing and the per-day duplicate
checks — causes no state change, so a call failing any of them leaves the
store unchanged; a single call appends at most one record, and exactly one
on success; but photo content validation (empty, undecodable or oversized
photos) runs after the record is inserted and committed, so a call failing
with one of the photo-processing messages leaves the new record behind. -/
theorem C5_side_effects_amended :
    (∀ (env : Env) (store : List CheckinRecord) (inp : CheckinInput),
      (create_checkin_checkout env store inp).2 = store ∨
      ∃ emp st dq ct, stageA env store inp = .ok (emp, st, dq, ct) ∧
        (create_checkin_checkout env store inp).2 =
          store ++ [mkRecord emp inp ct]) ∧
    (∀ (env : Env) (store : List CheckinRecord) (inp : CheckinInput)
      (s : SuccessData),
      (create_checkin_checkout env store inp).1.body = .success s →
      ∃ r0, (create_checkin_checkout env store inp).2 = store ++ [r0]) ∧
    (∀ (env : Env) (store : List CheckinRecord) (inp : CheckinInput)
      (m : Msg),
      (create_checkin_checkout env store inp).1.body = .exception m →
      ¬photoStageMsg m →
      (create_checkin_checkout env store inp).2 = store) := by
  refine ⟨create_store_inv, fun env store inp s hs => ?_,
    fun env store inp m hm hnot => ?_⟩
  · rcases create_cases env store inp with
      ⟨e, _, hE⟩ | ⟨emp, st, dq, ct, e, _, _, hE⟩ |
      ⟨emp, st, dq, ct, e, _, _, _, hE⟩ |
      ⟨emp, st, dq, ct, l, b, _, _, _, hE⟩
    · rw [hE, errResp_body] at hs; simp at hs
    · rw [hE, errResp_body] at hs; simp at hs
    · rw [hE, errResp_body] at hs; simp at hs
    · exact ⟨mkRecord emp inp ct, by rw [hE]⟩
  · rcases create_exception_source hm with
      ⟨e, _, _, hst⟩ | ⟨e, _, _, hst⟩ | ⟨e, hC, hmsg⟩
    · exact hst
    · exact hst
    · exfalso
      apply hnot
      rcases photoStage_error hC with h1 | h1 | h1 | h1 <;>
        (subst h1; simp only [msgOf] at hmsg; subst hmsg)
      · exact Or.inl rfl
      · exact Or.inr (Or.inl rfl)
      · exact Or.inr (Or.inr (Or.inl rfl))
      · exact Or.inr (Or.inr (Or.inr rfl))

/-- C5 witness: a duplicate-day failure (a pre-insert validation) leaves
the store unchanged, and a successful call appends exactly one record. -/
theorem C5_witness :
    (create_checkin_checkout baseEnv [recIN 3600] (inputIN 7200)).1.body =
      .exception (.alreadyCompleted true 0) ∧
    (create_checkin_checkout baseEnv [recIN 3600] (inputIN 7200)).2 =
      [recIN 3600] ∧
    (create_checkin_checkout baseEnv [] (inputIN 3600)).1.body =
      .success inSuccess ∧
    ∃ r0, (create_checkin_checkout baseEnv [] (inputIN 3600)).2 =
      [] ++ [r0] := by
  refine ⟨by decide, ?_, by decide, ?_⟩
  · exact C5_side_effects_amended.2.2 baseEnv [recIN 3600] (inputIN 7200)
      (.alreadyCompleted true 0) (by decide) (by simp [photoStageMsg])
  · exact C5_side_effects_amended.2.1 baseEnv [] (inputIN 3600) inSuccess
      (by decide)

/-- C1 counterexample: the duplicate checks filter on the closed SQL
`BETWEEN` window from midnight of the day through midnight of the next day
inclusive, so an IN timestamped exactly at midnight of day 1 satisfies the
prior-IN check for day 0: after an IN at 86400s, an OUT at 3600s (day 0,
01:00) succeeds, leaving an OUT record on day 0 with no IN record on day 0
— contradicting the claimed invariant that an OUT is only recorded after an
IN on that same calendar day. -/
theorem C1_counterexample :
    (create_checkin_checkout baseEnv [] (inputIN 86400)).2 =
      [recIN 86400] ∧
    (create_checkin_checkout baseEnv [recIN 86400] (inputOUT 3600)).1.status
      = 200 ∧
    (create_checkin_checkout baseEnv [recIN 86400] (inputOUT 3600)).2 =
      [recIN 86400, recOUT 3600] ∧
    (sameDayFilter [recIN 86400, recOUT 3600] "EMP-0001" "OUT" 0).length
      = 1 ∧
    (sameDayFilter [recIN 86400, recOUT 3600] "EMP-0001" "IN" 0).length
      = 0 :=
  ⟨by decide, by decide, by decide, by decide, by decide⟩

/-- C1 (amended): with the day window taken as the code computes it — the
closed interval from midnight of the timestamp day through midnight of the
next day, both ends included by the SQL `BETWEEN` — the per-(employee, day)
state machine holds: a first IN (no IN in the window) succeeds; a second IN
in the window fails 401 already-completed; an OUT with no IN in the window
fails 401 must-check-in-first; an OUT after an IN (no OUT in the window
yet) succeeds; a second OUT fails 401 already-completed.  Every call
preserves the invariant that at most one IN and one OUT record exist per
employee per calendar day, and an OUT is recorded only when an IN of the
same employee exists in the closed window — which, because the upper bound
is inclusive, may be an IN at exactly midnight of the following day rather
than an IN on the same day. -/
theorem C1_day_state_machine :
    (∀ (env : Env) (emp : String) (st : Settings)
      (store : List CheckinRecord) (T : Int) (lat lon dq : Option Rat),
      emp ≠ "" → env.employees.contains emp = true →
      env.activeError emp = none → env.settings emp = .ok st →
      st.required_to_upload_location_photo = false →
      st.required_to_upload_client_bio_metric_photo = false →
      st.require_location_check_on_check_out = false →
      env.insertError = none →
      ((locationStage env st "IN" lat lon = .ok dq →
        checkinCount store emp "IN" (dayFloor T) (dayFloor T + 86400) = 0 →
        create_checkin_checkout env store (simpleInput emp "IN" T lat lon) =
          ({ status := 200
             body := .success
               { employee := emp
                 log_type := "IN"
                 time := { seconds := T, micro := 0, tzOffset := none }
                 latitude := if truthyNum lat then lat else none
                 longitude := if truthyNum lon then lon else none
                 distance := dq
                 location_photo := none
                 biometric_photo := none } },
           store ++
             [{ employee := emp
                log_type := "IN"
                time := T
                latitude := if truthyNum lat then lat else none
                longitude := if truthyNum lon then lon else none
                device_id := none }])) ∧
       (locationStage env st "IN" lat lon = .ok dq →
        0 < checkinCount store emp "IN" (dayFloor T) (dayFloor T + 86400) →
        create_checkin_checkout env store (simpleInput emp "IN" T lat lon) =
          ({ status := 401
             body := .exception (.alreadyCompleted true (dayFloor T)) },
           store)) ∧
       (checkinExists store emp "IN" (dayFloor T) (dayFloor T + 86400)
          = false →
        create_checkin_checkout env store (simpleInput emp "OUT" T lat lon) =
          ({ status := 401
             body := .exception (.mustCheckInFirst (dayFloor T)) },
           store)) ∧
       (checkinExists store emp "IN" (dayFloor T) (dayFloor T + 86400)
          = true →
        checkinCount store emp "OUT" (dayFloor T) (dayFloor T + 86400) = 0 →
        create_checkin_checkout env store (simpleInput emp "OUT" T lat lon) =
          ({ status := 200
             body := .success
               { employee := emp
                 log_type := "OUT"
                 time := { seconds := T, micro := 0, tzOffset := none }
                 latitude := if truthyNum lat then lat else none
                 longitude := if truthyNum lon then lon else none
                 distance := none
                 location_photo := none
                 biometric_photo := none } },
           store ++
             [{ employee := emp
                log_type := "OUT"
                time := T
                latitude := if truthyNum lat then lat else none
                longitude := if truthyNum lon then lon else none
                device_id := none }])) ∧
       (checkinExists store emp "IN" (dayFloor T) (dayFloor T + 86400)
          = true →
        0 < checkinCount store emp "OUT" (dayFloor T) (dayFloor T + 86400) →
        create_checkin_checkout env store (simpleInput emp "OUT" T lat lon) =
          ({ status := 401
             body := .exception (.alreadyCompleted false (dayFloor T)) },
           store)))) ∧
    (∀ (env : Env) (store : List CheckinRecord) (inp : CheckinInput),
      atMostOnePerDay store →
      atMostOnePerDay (create_checkin_checkout env store inp).2) ∧
    (∀ (env : Env) (store : List CheckinRecord) (inp : CheckinInput),
      (create_checkin_checkout env store inp).2 = store ∨
      ∃ r0, (create_checkin_checkout env store inp).2 = store ++ [r0] ∧
        r0.log_type = inp.log_type ∧
        (r0.log_type = "OUT" →
          checkinExists store r0.employee "IN" (dayFloor r0.time)
            (dayFloor r0.time + 86400) = true) ∧
        checkinCount store r0.employee r0.log_type (dayFloor r0.time)
          (dayFloor r0.time + 86400) = 0) := by
  refine ⟨?_, atMostOne_preserved, ?_⟩
  · intro env emp st store T lat lon dq h1 h2 h3 h4 h5 h6 h7 h8
    have hlocOut : locationStage env st "OUT" lat lon = .ok none :=
      locationStage_out_skip lat lon h7
    refine ⟨fun h9 hcnt => ?_, fun h9 hcnt => ?_, fun hex => ?_,
      fun hex hcnt => ?_, fun hex hcnt => ?_⟩
    · rw [create_simple "IN" T lat lon store h1 h2 h3 h4 h5 h6
        (Or.inl rfl) h9 h8, dayStage_first_in hcnt]
    · rw [create_simple "IN" T lat lon store h1 h2 h3 h4 h5 h6
        (Or.inl rfl) h9 h8, dayStage_second_in hcnt]
      rfl
    · rw [create_simple "OUT" T lat lon store h1 h2 h3 h4 h5 h6
        (Or.inr rfl) hlocOut h8, dayStage_out_no_in hex]
      rfl
    · rw [create_simple "OUT" T lat lon store h1 h2 h3 h4 h5 h6
        (Or.inr rfl) hlocOut h8, dayStage_out_after_in hex hcnt]
    · rw [create_simple "OUT" T lat lon store h1 h2 h3 h4 h5 h6
        (Or.inr rfl) hlocOut h8, dayStage_second_out hex hcnt]
      rfl
  · intro env store inp
    rcases create_store_inv env store inp with h | ⟨emp, st, dq, ct, hA, h⟩
    · exact Or.inl h
    · right
      have hd := dayStage_ok_inv ((stageA_ok_inv hA).2.2.2.2.2.2.2.2)
      refine ⟨mkRecord emp inp ct, h, rfl, ?_, ?_⟩
      · intro hout
        simpa [mkRecord] using hd.1 (by simpa [mkRecord] using hout)
      · simpa [mkRecord] using hd.2

/-- C1 witness: a concrete run of every transition of the state machine on
one day, and invariant preservation on a concrete store. -/
theorem C1_witness :
    create_checkin_checkout baseEnv [] (inputIN 3600) =
      ({ status := 200, body := .success inSuccess }, [recIN 3600]) ∧
    create_checkin_checkout baseEnv [recIN 3600] (inputIN 7200) =
      ({ status := 401
         body := .exception (.alreadyCompleted true 0) }, [recIN 3600]) ∧
    create_checkin_checkout baseEnv [] (inputOUT 3600) =
      ({ status := 401
         body := .exception (.mustCheckInFirst 0) }, []) ∧
    create_checkin_checkout baseEnv [recIN 3600] (inputOUT 7200) =
      ({ status := 200, body := .success outSuccess },
       [recIN 3600, recOUT 7200]) ∧
    create_checkin_checkout baseEnv [recIN 3600, recOUT 7200]
      (inputOUT 28800) =
      ({ status := 401
         body := .exception (.alreadyCompleted false 0) },
       [recIN 3600, recOUT 7200]) ∧
    atMostOnePerDay
      (create_checkin_checkout baseEnv [recIN 3600] (inputOUT 7200)).2 := by
  have hsc := C1_day_state_machine.1 baseEnv "EMP-0001" plainSettings
  have hinv1 : atMostOnePerDay [recIN 3600] := by
    intro emp lt d
    unfold sameDayFilter
    rw [List.filter_singleton]
    cases sameDayMatch emp lt d (recIN 3600) <;> simp
  refine ⟨?_, ?_, ?_, ?_, ?_, ?_⟩
  · exact ((hsc [] 3600 (some 1) (some 1) (some 0) (by decide) (by decide)
      rfl rfl rfl rfl rfl rfl).1 (by decide) (by decide)).trans (by decide)
  · exact ((hsc [recIN 3600] 7200 (some 1) (some 1) (some 0) (by decide)
      (by decide) rfl rfl rfl rfl rfl rfl).2.1 (by decide)
      (by decide)).trans (by decide)
  · exact ((hsc [] 3600 none none (some 0) (by decide) (by decide)
      rfl rfl rfl rfl rfl rfl).2.2.1 (by decide)).trans (by decide)
  · exact ((hsc [recIN 3600] 7200 none none (some 0) (by decide)
      (by decide) rfl rfl rfl rfl rfl rfl).2.2.2.1 (by decide)
      (by decide)).trans (by decide)
  · exact ((hsc [recIN 3600, recOUT 7200] 28800 none none (some 0)
      (by decide) (by decide) rfl rfl rfl rfl rfl rfl).2.2.2.2 (by decide)
      (by decide)).trans (by decide)
  · exact C1_day_state_machine.2.1 baseEnv [recIN 3600] (inputOUT 7200)
      hinv1

end MobileApp
